import Mathlib

/-!
# Cloud Shell source and tools: a shallow embedding

The Go packages `internal/sources/cloudshell` and
`internal/tools/cloudshell/{cloudshellstart, cloudshelladdkey, cloudshellauthorize,
cloudshellgetenv}` are embedded as pure Lean functions.

* A remote call is answered by a `CloudShellClient`: a record of functions that map the
  events of the invocation so far, the context and the request to an answer.  Every
  deterministic remote service is such a record, so a statement proved for all clients
  holds whatever the service does.
* `Invoke` returns the list of remote calls it issued (with the outcome of each) next to
  its Go return value; `Except.error e` stands for `return nil, e`.
* A `context.Context` is reduced to its deadline (nanoseconds, `none` when the context
  has no deadline); cancellation by the caller is not modelled.
* `time.Now()` is a function of the events so far, passed to the tools that read the
  clock.
-/

namespace CloudShell

/-! ## Go values -/

/-- An argument handed to `fmt.Errorf` for a `%s` or `%q` verb. -/
inductive FmtArg where
  | str (s : String)
  | strs (l : List String)
  deriving DecidableEq, Repr

/-- Go `error` values: an error handed back by the client library (with its `Error()`
text), `fmt.Errorf(format, args...)` without `%w` (kept unrendered), and
`fmt.Errorf(pre ++ "%w", cause)`. -/
inductive GoError where
  | remote (text : String)
  | errorf (format : String) (args : List FmtArg)
  | wrapf (pre : String) (cause : GoError)
  deriving DecidableEq, Repr

/-- The method `Error()`.  The rendering of `%s` and `%q` by `fmt.Sprintf` belongs to the Go
standard library and is the argument `sprintf`; `%w` renders the text of the cause. -/
def GoError.Error (sprintf : String → List FmtArg → String) : GoError → String
  | .remote text => text
  | .errorf format args => sprintf format args
  | .wrapf pre cause => pre ++ cause.Error sprintf

/-- The function `errors.Unwrap`: the error wrapped with `%w`, if any. -/
def GoError.Unwrap : GoError → Option GoError
  | .wrapf _ cause => some cause
  | _ => none

/-- The message `*shellpb.AuthorizeEnvironmentResponse`, which has no fields. -/
structure AuthorizeEnvironmentResponse where
  deriving DecidableEq, Repr

/-- Values of Go type `any` that the tools read or build. -/
inductive Value where
  | null
  | bool (b : Bool)
  | str (s : String)
  | int32 (n : Int)
  | int (n : Int)
  | authorizeResponse (r : AuthorizeEnvironmentResponse)
  | map (entries : List (String × Value))

/-- A Go `map[string]T`: an association list read by its first binding of a key. -/
abbrev GoMap (α : Type) := List (String × α)

/-- Read `m[k]`; `none` when the key is absent (Go's `ok = false`). -/
def GoMap.get {α : Type} (m : GoMap α) (k : String) : Option α :=
  match m with
  | [] => none
  | (k', v) :: rest => if k' = k then some v else GoMap.get rest k

/-- The assignment `m[k] = v`: replaces the binding of `k` or adds one. -/
def GoMap.set {α : Type} (m : GoMap α) (k : String) (v : α) : GoMap α :=
  match m with
  | [] => [(k, v)]
  | (k', v') :: rest => if k' = k then (k, v) :: rest else (k', v') :: GoMap.set rest k v

/-- The keys of a map. -/
def GoMap.keys {α : Type} (m : GoMap α) : List String := m.map Prod.fst

/-- A map literal `map[string]any{k1: v1, ...}`, its entries assigned in order. -/
def GoMap.literal {α : Type} (entries : List (String × α)) : GoMap α :=
  entries.foldl (fun m kv => GoMap.set m kv.1 kv.2) []

/-- The type assertion `v, ok := x.(string)` on the result of a map read. -/
def assertString : Option Value → String × Bool
  | some (.str s) => (s, true)
  | _ => ("", false)

/-! ## Contexts and time -/

/-- A `context.Context`, reduced to `ctx.Deadline()` in nanoseconds. -/
structure Context where
  deadline : Option Nat
  deriving DecidableEq, Repr

/-- The duration `time.Second`, in nanoseconds. -/
def Second : Nat := 1000000000

/-- The duration `time.Minute`. -/
def Minute : Nat := 60 * Second

/-- The function `context.WithTimeout(parent, timeout)` called when the clock reads `now`:
`WithDeadline(parent, now + timeout)`, which keeps the parent's deadline when that one is
already sooner. -/
def WithTimeout (parent : Context) (now : Nat) (timeout : Nat) : Context :=
  match parent.deadline with
  | some cur => if cur < now + timeout then parent else { deadline := some (now + timeout) }
  | none => { deadline := some (now + timeout) }

/-! ## The remote API (`shellpb`, `shell`) -/

/-- The enum `shellpb.Environment_State`, an `int32`. -/
structure Environment_State where
  num : Int
  deriving DecidableEq, Repr

def Environment_STATE_UNSPECIFIED : Environment_State := ⟨0⟩
def Environment_SUSPENDED : Environment_State := ⟨1⟩
def Environment_PENDING : Environment_State := ⟨2⟩
def Environment_RUNNING : Environment_State := ⟨3⟩
def Environment_DELETING : Environment_State := ⟨4⟩

/-- The method `String()` of the enum: the declared name, or the number in decimal. -/
def Environment_State.String (s : Environment_State) : String :=
  if s.num = 0 then "STATE_UNSPECIFIED"
  else if s.num = 1 then "SUSPENDED"
  else if s.num = 2 then "PENDING"
  else if s.num = 3 then "RUNNING"
  else if s.num = 4 then "DELETING"
  else toString s.num

/-- The message `shellpb.Environment`. -/
structure Environment where
  Name : String
  Id : String
  DockerImage : String
  State : Environment_State
  WebHost : String
  SshUsername : String
  SshHost : String
  SshPort : Int
  PublicKeys : List String
  deriving DecidableEq, Repr

structure GetEnvironmentRequest where
  Name : String
  deriving DecidableEq, Repr

structure StartEnvironmentRequest where
  Name : String
  AccessToken : String := ""
  PublicKeys : List String := []
  deriving DecidableEq, Repr

structure AuthorizeEnvironmentRequest where
  Name : String
  AccessToken : String := ""
  IdToken : String := ""
  ExpireTime : Option Nat := none
  deriving DecidableEq, Repr

structure AddPublicKeyRequest where
  Environment : String
  Key : String
  deriving DecidableEq, Repr

/-- The handle `*shell.StartEnvironmentOperation`. -/
structure StartEnvironmentOperation where
  handle : Nat
  deriving DecidableEq, Repr

/-- The handle `*shell.AuthorizeEnvironmentOperation`. -/
structure AuthorizeEnvironmentOperation where
  handle : Nat
  deriving DecidableEq, Repr

/-- The handle `*shell.AddPublicKeyOperation`. -/
structure AddPublicKeyOperation where
  handle : Nat
  deriving DecidableEq, Repr

/-- The message `shellpb.StartEnvironmentResponse`. -/
structure StartEnvironmentResponse where
  Environment : Option Environment
  deriving DecidableEq, Repr

/-- The message `shellpb.AddPublicKeyResponse`. -/
structure AddPublicKeyResponse where
  Key : String
  deriving DecidableEq, Repr

/-- A remote call: a method of the client, or `Wait` on an operation handle. -/
inductive Call where
  | GetEnvironment (ctx : Context) (req : GetEnvironmentRequest)
  | StartEnvironment (ctx : Context) (req : StartEnvironmentRequest)
  | AuthorizeEnvironment (ctx : Context) (req : AuthorizeEnvironmentRequest)
  | AddPublicKey (ctx : Context) (req : AddPublicKeyRequest)
  | WaitStart (ctx : Context) (op : StartEnvironmentOperation)
  | WaitAuthorize (ctx : Context) (op : AuthorizeEnvironmentOperation)
  | WaitAddPublicKey (ctx : Context) (op : AddPublicKeyOperation)
  deriving DecidableEq, Repr

/-- The context a call ran under. -/
def Call.ctx : Call → Context
  | .GetEnvironment ctx _ => ctx
  | .StartEnvironment ctx _ => ctx
  | .AuthorizeEnvironment ctx _ => ctx
  | .AddPublicKey ctx _ => ctx
  | .WaitStart ctx _ => ctx
  | .WaitAuthorize ctx _ => ctx
  | .WaitAddPublicKey ctx _ => ctx

/-- An issued call with its outcome: `failed = some err` when it returned `err`. -/
structure Event where
  call : Call
  failed : Option GoError
  deriving DecidableEq, Repr

/-- The client `*shell.CloudShellClient` with the `Wait` methods of the operations it
hands out.  Each method sees the events of the invocation so far.  A `Wait` returns a
pointer to the response, which may be nil. -/
structure CloudShellClient where
  GetEnvironment : List Event → Context → GetEnvironmentRequest → Except GoError Environment
  StartEnvironment :
    List Event → Context → StartEnvironmentRequest → Except GoError StartEnvironmentOperation
  AuthorizeEnvironment :
    List Event → Context → AuthorizeEnvironmentRequest →
      Except GoError AuthorizeEnvironmentOperation
  AddPublicKey :
    List Event → Context → AddPublicKeyRequest → Except GoError AddPublicKeyOperation
  WaitStart :
    List Event → Context → StartEnvironmentOperation →
      Except GoError (Option StartEnvironmentResponse)
  WaitAuthorize :
    List Event → Context → AuthorizeEnvironmentOperation →
      Except GoError (Option AuthorizeEnvironmentResponse)
  WaitAddPublicKey :
    List Event → Context → AddPublicKeyOperation →
      Except GoError (Option AddPublicKeyResponse)

/-- The reading of `time.Now()` (nanoseconds) after the given events. -/
abbrev Clock := List Event → Nat

/-! ## Package `internal/sources/cloudshell` -/

namespace cloudshell

def SourceKind : String := "cloud-shell"

/-- The interface value `trace.Tracer`. -/
structure Tracer where
  id : Nat
  deriving DecidableEq, Repr

structure Source where
  Name : String
  Kind : String
  Project : String
  User : String
  Client : CloudShellClient
  tracer : Tracer

def Source.GetProject (s : Source) : String := s.Project

def Source.GetUser (s : Source) : String := s.User

def Source.CloudShellClient (s : Source) : CloudShellClient := s.Client

/-- The full environment resource name;
`fmt.Sprintf("users/%s/environments/default", s.User)` is the concatenation. -/
def Source.GetEnvironmentName (s : Source) : String :=
  if s.User ≠ "" then
    "users/" ++ s.User ++ "/environments/default"
  else
    "users/me/environments/default"

def Source.SourceKind (s : Source) : String := s.Kind

end cloudshell

/-! ## Package `internal/tools` and `internal/sources`: the declarations the tools use -/

/-- Modelled from the spec: `tools.Parameter` as built by `tools.NewStringParameter` and
`tools.NewStringParameterWithDefault`, which are not among the sources; parameter
declarations are pure metadata (name, human-readable description, optional default). -/
structure Parameter where
  Name : String
  Desc : String
  Default : Option String
  deriving DecidableEq, Repr

def NewStringParameter (name desc : String) : Parameter :=
  { Name := name, Desc := desc, Default := none }

def NewStringParameterWithDefault (name defaultV desc : String) : Parameter :=
  { Name := name, Desc := desc, Default := some defaultV }

/-- The type `tools.Parameters`. -/
abbrev Parameters := List Parameter

/-- The manifest projections of `tools.Parameters`, which are not among the sources: the
types they produce and the two methods `Manifest()` and `McpManifest()`. -/
structure ToolsPkg where
  ParameterManifest : Type
  McpToolsSchema : Type
  Manifest : Parameters → List ParameterManifest
  McpManifest : Parameters → McpToolsSchema

/-- The struct `tools.Manifest`. -/
structure Manifest (P : ToolsPkg) where
  Description : String
  Parameters : List P.ParameterManifest
  AuthRequired : List String

/-- The struct `tools.McpManifest`. -/
structure McpManifest (P : ToolsPkg) where
  Name : String
  Description : String
  InputSchema : P.McpToolsSchema

/-- A value of interface type `sources.Source`: what `SourceKind()` returns, and for each
of the two accessors of `compatibleSource` whether the dynamic type has the method (with
that signature) and what it returns.  A nil interface value has neither. -/
structure SourceValue where
  SourceKind : String
  CloudShellClient : Option CloudShellClient
  GetEnvironmentName : Option String

/-- A `*cloudshell.Source` as a `sources.Source`. -/
def cloudshell.Source.toSourceValue (s : cloudshell.Source) : SourceValue :=
  { SourceKind := s.SourceKind
    CloudShellClient := some s.CloudShellClient
    GetEnvironmentName := some s.GetEnvironmentName }

/-- The interface `compatibleSource`, declared alike by the four tool packages. -/
structure compatibleSource where
  CloudShellClient : CloudShellClient
  GetEnvironmentName : String

/-- The type assertion `s, ok := rawS.(compatibleSource)`. -/
def assertCompatibleSource (rawS : SourceValue) : Option compatibleSource :=
  match rawS.CloudShellClient, rawS.GetEnvironmentName with
  | some c, some n => some { CloudShellClient := c, GetEnvironmentName := n }
  | _, _ => none

/-- The array `compatibleSources`, declared alike by the four tool packages. -/
def compatibleSources : List String := [cloudshell.SourceKind]

/-- The struct `Config`, declared alike by the four tool packages. -/
structure Config where
  Name : String
  Kind : String
  Source : String
  Description : String
  AuthRequired : List String
  deriving DecidableEq, Repr

/-- The struct `Tool`, declared alike by the four tool packages. -/
structure Tool (P : ToolsPkg) where
  Name : String
  Kind : String
  Parameters : Parameters
  AuthRequired : List String
  Client : CloudShellClient
  EnvName : String
  manifest : Manifest P
  mcpManifest : McpManifest P

/-- What `Invoke` did and returned: the remote calls in the order issued, and the Go
return value (`Except.error e` for `return nil, e`). -/
abbrev Outcome := List Event × Except GoError (List Value)

/-! ## Package `internal/tools/cloudshell/cloudshellstart` -/

namespace cloudshellstart

def kind : String := "cloudshell-start"

def Initialize (P : ToolsPkg) (cfg : Config) (srcs : GoMap SourceValue) :
    Except GoError (Tool P) :=
  match srcs.get cfg.Source with
  | none => .error (.errorf "no source named %q configured" [.str cfg.Source])
  | some rawS =>
    match assertCompatibleSource rawS with
    | none =>
      .error (.errorf "invalid source for %q tool: source kind must be one of %q"
        [.str kind, .strs compatibleSources])
    | some s =>
      let parameters : Parameters := []
      let mcpManifest : McpManifest P :=
        { Name := cfg.Name
          Description := cfg.Description
          InputSchema := P.McpManifest parameters }
      .ok
        { Name := cfg.Name
          Kind := kind
          Parameters := parameters
          AuthRequired := cfg.AuthRequired
          Client := s.CloudShellClient
          EnvName := s.GetEnvironmentName
          manifest :=
            { Description := cfg.Description
              Parameters := P.Manifest parameters
              AuthRequired := cfg.AuthRequired }
          mcpManifest := mcpManifest }

def Invoke {P : ToolsPkg} (t : Tool P) (clock : Clock) (ctx : Context)
    (_params : GoMap Value) : Outcome :=
  -- First, try to get the environment
  let getReq : GetEnvironmentRequest := { Name := t.EnvName }
  match t.Client.GetEnvironment [] ctx getReq with
  | .error err =>
    ([⟨.GetEnvironment ctx getReq, some err⟩], .error (.wrapf "failed to get environment: " err))
  | .ok env =>
    let log1 : List Event := [⟨.GetEnvironment ctx getReq, none⟩]
    -- Check if environment is already running
    if env.State = Environment_RUNNING then
      (log1, .ok [.map (GoMap.literal [
        ("status", .str "already_running"),
        ("environment", .map (GoMap.literal [
          ("name", .str env.Name),
          ("id", .str env.Id),
          ("state", .str env.State.String),
          ("ssh_host", .str env.SshHost),
          ("ssh_port", .int32 env.SshPort),
          ("ssh_username", .str env.SshUsername),
          ("web_host", .str env.WebHost)]))])])
    else
      -- Start the environment
      let startReq : StartEnvironmentRequest := { Name := t.EnvName }
      match t.Client.StartEnvironment log1 ctx startReq with
      | .error err =>
        (log1 ++ [⟨.StartEnvironment ctx startReq, some err⟩],
          .error (.wrapf "failed to start environment: " err))
      | .ok op =>
        let log2 := log1 ++ [⟨.StartEnvironment ctx startReq, none⟩]
        -- Wait for the operation to complete (with timeout)
        let ctx := WithTimeout ctx (clock log2) (5 * Minute)
        match t.Client.WaitStart log2 ctx op with
        | .error err =>
          (log2 ++ [⟨.WaitStart ctx op, some err⟩],
            .error (.wrapf "failed waiting for environment to start: " err))
        | .ok _ =>
          let log3 := log2 ++ [⟨.WaitStart ctx op, none⟩]
          -- Get the environment details after starting
          let getReq : GetEnvironmentRequest := { Name := t.EnvName }
          match t.Client.GetEnvironment log3 ctx getReq with
          | .error err =>
            (log3 ++ [⟨.GetEnvironment ctx getReq, some err⟩],
              .error (.wrapf "failed to get environment after starting: " err))
          | .ok env =>
            (log3 ++ [⟨.GetEnvironment ctx getReq, none⟩],
              .ok [.map (GoMap.literal [
                ("status", .str "started"),
                ("environment", .map (GoMap.literal [
                  ("name", .str env.Name),
                  ("id", .str env.Id),
                  ("state", .str env.State.String),
                  ("ssh_host", .str env.SshHost),
                  ("ssh_port", .int32 env.SshPort),
                  ("ssh_username", .str env.SshUsername),
                  ("web_host", .str env.WebHost)]))])])

end cloudshellstart

/-! ## Package `internal/tools/cloudshell/cloudshelladdkey` -/

namespace cloudshelladdkey

def kind : String := "cloudshell-add-key"

def publicKeyKey : String := "public_key"

def Initialize (P : ToolsPkg) (cfg : Config) (srcs : GoMap SourceValue) :
    Except GoError (Tool P) :=
  match srcs.get cfg.Source with
  | none => .error (.errorf "no source named %q configured" [.str cfg.Source])
  | some rawS =>
    match assertCompatibleSource rawS with
    | none =>
      .error (.errorf "invalid source for %q tool: source kind must be one of %q"
        [.str kind, .strs compatibleSources])
    | some s =>
      let publicKeyParameter :=
        NewStringParameter publicKeyKey "SSH public key to add (e.g., ssh-rsa AAAAB3... user@host)"
      let parameters : Parameters := [publicKeyParameter]
      let mcpManifest : McpManifest P :=
        { Name := cfg.Name
          Description := cfg.Description
          InputSchema := P.McpManifest parameters }
      .ok
        { Name := cfg.Name
          Kind := kind
          Parameters := parameters
          AuthRequired := cfg.AuthRequired
          Client := s.CloudShellClient
          EnvName := s.GetEnvironmentName
          manifest :=
            { Description := cfg.Description
              Parameters := P.Manifest parameters
              AuthRequired := cfg.AuthRequired }
          mcpManifest := mcpManifest }

/-- The method `Invoke`; `mapParams` is `params.AsMap()`. -/
def Invoke {P : ToolsPkg} (t : Tool P) (ctx : Context) (mapParams : GoMap Value) : Outcome :=
  -- Get the public key
  let (publicKey, ok) := assertString (mapParams.get publicKeyKey)
  if !ok || publicKey = "" then
    ([], .error (.errorf "invalid or missing '%s' parameter; expected a non-empty string"
      [.str publicKeyKey]))
  else
    let req : AddPublicKeyRequest := { Environment := t.EnvName, Key := publicKey }
    -- Add the public key
    match t.Client.AddPublicKey [] ctx req with
    | .error err =>
      ([⟨.AddPublicKey ctx req, some err⟩], .error (.wrapf "failed to add public key: " err))
    | .ok op =>
      let log1 : List Event := [⟨.AddPublicKey ctx req, none⟩]
      -- Wait for operation to complete
      match t.Client.WaitAddPublicKey log1 ctx op with
      | .error err =>
        (log1 ++ [⟨.WaitAddPublicKey ctx op, some err⟩],
          .error (.wrapf "failed waiting for add public key operation: " err))
      | .ok _ =>
        let log2 := log1 ++ [⟨.WaitAddPublicKey ctx op, none⟩]
        -- Get the environment details after adding the key
        let getReq : GetEnvironmentRequest := { Name := t.EnvName }
        match t.Client.GetEnvironment log2 ctx getReq with
        | .error err =>
          (log2 ++ [⟨.GetEnvironment ctx getReq, some err⟩],
            .error (.wrapf "failed to get environment after adding key: " err))
        | .ok env =>
          let result : GoMap Value := GoMap.literal [
            ("status", .str "key_added"),
            ("environment", .map (GoMap.literal [
              ("name", .str env.Name),
              ("id", .str env.Id),
              ("state", .str env.State.String),
              ("ssh_host", .str env.SshHost),
              ("ssh_port", .int32 env.SshPort),
              ("ssh_username", .str env.SshUsername)]))]
          -- Add public keys count if available
          let result :=
            if env.PublicKeys.length > 0 then
              result.set "public_keys_count" (.int env.PublicKeys.length)
            else result
          (log2 ++ [⟨.GetEnvironment ctx getReq, none⟩], .ok [.map result])

end cloudshelladdkey

/-! ## Package `internal/tools/cloudshell/cloudshellauthorize` -/

namespace cloudshellauthorize

def kind : String := "cloudshell-authorize"

def accessTokenKey : String := "access_token"

def Initialize (P : ToolsPkg) (cfg : Config) (srcs : GoMap SourceValue) :
    Except GoError (Tool P) :=
  match srcs.get cfg.Source with
  | none => .error (.errorf "no source named %q configured" [.str cfg.Source])
  | some rawS =>
    match assertCompatibleSource rawS with
    | none =>
      .error (.errorf "invalid source for %q tool: source kind must be one of %q"
        [.str kind, .strs compatibleSources])
    | some s =>
      let accessTokenParameter :=
        NewStringParameterWithDefault accessTokenKey ""
          "Optional: Access token for authorization. If not provided, uses default credentials."
      let parameters : Parameters := [accessTokenParameter]
      let mcpManifest : McpManifest P :=
        { Name := cfg.Name
          Description := cfg.Description
          InputSchema := P.McpManifest parameters }
      .ok
        { Name := cfg.Name
          Kind := kind
          Parameters := parameters
          AuthRequired := cfg.AuthRequired
          Client := s.CloudShellClient
          EnvName := s.GetEnvironmentName
          manifest :=
            { Description := cfg.Description
              Parameters := P.Manifest parameters
              AuthRequired := cfg.AuthRequired }
          mcpManifest := mcpManifest }

/-- The method `Invoke`; `mapParams` is `params.AsMap()`. -/
def Invoke {P : ToolsPkg} (t : Tool P) (clock : Clock) (ctx : Context)
    (mapParams : GoMap Value) : Outcome :=
  -- Get optional access token
  let accessToken := (assertString (mapParams.get accessTokenKey)).1
  -- Create authorization request
  let req : AuthorizeEnvironmentRequest := { Name := t.EnvName }
  -- Add access token if provided
  let req := if accessToken ≠ "" then { req with AccessToken := accessToken } else req
  -- Set authorization timeout
  let ctx := WithTimeout ctx (clock []) (30 * Second)
  match t.Client.AuthorizeEnvironment [] ctx req with
  | .error err =>
    ([⟨.AuthorizeEnvironment ctx req, some err⟩],
      .error (.wrapf "failed to authorize environment: " err))
  | .ok op =>
    let log1 : List Event := [⟨.AuthorizeEnvironment ctx req, none⟩]
    -- Wait for authorization to complete
    match t.Client.WaitAuthorize log1 ctx op with
    | .error err =>
      (log1 ++ [⟨.WaitAuthorize ctx op, some err⟩], .error (.wrapf "authorization failed: " err))
    | .ok resp =>
      let result : GoMap Value := GoMap.literal [("status", .str "authorized")]
      -- Add response if available
      let result :=
        match resp with
        | some r => result.set "response" (.authorizeResponse r)
        | none => result
      (log1 ++ [⟨.WaitAuthorize ctx op, none⟩], .ok [.map result])

end cloudshellauthorize

/-! ## Package `internal/tools/cloudshell/cloudshellgetenv` -/

namespace cloudshellgetenv

def kind : String := "cloudshell-get-env"

def Initialize (P : ToolsPkg) (cfg : Config) (srcs : GoMap SourceValue) :
    Except GoError (Tool P) :=
  match srcs.get cfg.Source with
  | none => .error (.errorf "no source named %q configured" [.str cfg.Source])
  | some rawS =>
    match assertCompatibleSource rawS with
    | none =>
      .error (.errorf "invalid source for %q tool: source kind must be one of %q"
        [.str kind, .strs compatibleSources])
    | some s =>
      let parameters : Parameters := []
      let mcpManifest : McpManifest P :=
        { Name := cfg.Name
          Description := cfg.Description
          InputSchema := P.McpManifest parameters }
      .ok
        { Name := cfg.Name
          Kind := kind
          Parameters := parameters
          AuthRequired := cfg.AuthRequired
          Client := s.CloudShellClient
          EnvName := s.GetEnvironmentName
          manifest :=
            { Description := cfg.Description
              Parameters := P.Manifest parameters
              AuthRequired := cfg.AuthRequired }
          mcpManifest := mcpManifest }

def Invoke {P : ToolsPkg} (t : Tool P) (ctx : Context) (_params : GoMap Value) : Outcome :=
  let req : GetEnvironmentRequest := { Name := t.EnvName }
  match t.Client.GetEnvironment [] ctx req with
  | .error err =>
    ([⟨.GetEnvironment ctx req, some err⟩], .error (.wrapf "failed to get environment: " err))
  | .ok env =>
    -- Build response with environment details
    let result : GoMap Value := GoMap.literal [
      ("name", .str env.Name),
      ("id", .str env.Id),
      ("state", .str env.State.String),
      ("docker_image", .str env.DockerImage)]
    -- Add SSH connection info if available
    let result :=
      if env.SshHost ≠ "" then
        ((result.set "ssh_host" (.str env.SshHost)).set "ssh_port" (.int32 env.SshPort)).set
          "ssh_username" (.str env.SshUsername)
      else result
    -- Add web host info if available
    let result := if env.WebHost ≠ "" then result.set "web_host" (.str env.WebHost) else result
    ([⟨.GetEnvironment ctx req, none⟩], .ok [.map result])

end cloudshellgetenv

/-! ## Concrete values on which the theorems are instantiated -/

/-- A package `tools` whose manifest projections carry nothing. -/
def demoPkg : ToolsPkg :=
  { ParameterManifest := Unit
    McpToolsSchema := Unit
    Manifest := fun _ => []
    McpManifest := fun _ => () }

/-- An environment in the given state, with SSH and web hosts and one public key. -/
def demoEnv (st : Environment_State) : Environment :=
  { Name := "users/me/environments/default"
    Id := "default"
    DockerImage := "gcr.io/cloudshell-images/cloudshell:latest"
    State := st
    WebHost := "web.example"
    SshUsername := "alice"
    SshHost := "ssh.example"
    SshPort := 6000
    PublicKeys := ["ssh-ed25519 AAAA alice@host"] }

/-- A client all of whose calls succeed: the first `GetEnvironment` of an invocation
reports `first`, every later one `later`. -/
def demoClient (first later : Environment) : CloudShellClient :=
  { GetEnvironment := fun log _ _ => if log.isEmpty then .ok first else .ok later
    StartEnvironment := fun _ _ _ => .ok ⟨1⟩
    AuthorizeEnvironment := fun _ _ _ => .ok ⟨2⟩
    AddPublicKey := fun _ _ _ => .ok ⟨3⟩
    WaitStart := fun _ _ _ => .ok (some ⟨none⟩)
    WaitAuthorize := fun _ _ _ => .ok (some ⟨⟩)
    WaitAddPublicKey := fun _ _ _ => .ok (some ⟨"ssh-ed25519 AAAA alice@host"⟩) }

/-- A client whose calls succeed until the log holds `n` events and fail from then on. -/
def failingClient (n : Nat) (err : GoError) : CloudShellClient :=
  { GetEnvironment := fun log _ _ =>
      if log.length < n then .ok (demoEnv Environment_PENDING) else .error err
    StartEnvironment := fun log _ _ => if log.length < n then .ok ⟨1⟩ else .error err
    AuthorizeEnvironment := fun log _ _ => if log.length < n then .ok ⟨2⟩ else .error err
    AddPublicKey := fun log _ _ => if log.length < n then .ok ⟨3⟩ else .error err
    WaitStart := fun log _ _ => if log.length < n then .ok none else .error err
    WaitAuthorize := fun log _ _ => if log.length < n then .ok none else .error err
    WaitAddPublicKey := fun log _ _ => if log.length < n then .ok none else .error err }

/-- A tool bound to the given client and to the environment of the current user. -/
def demoTool (kind : String) (client : CloudShellClient) : Tool demoPkg :=
  { Name := "my-tool"
    Kind := kind
    Parameters := []
    AuthRequired := []
    Client := client
    EnvName := "users/me/environments/default"
    manifest := { Description := "demo", Parameters := [], AuthRequired := [] }
    mcpManifest := { Name := "my-tool", Description := "demo", InputSchema := () } }

/-- A source configured for the user "alice". -/
def demoSource : cloudshell.Source :=
  { Name := "my-shell"
    Kind := "cloud-shell"
    Project := "my-project"
    User := "alice"
    Client := demoClient (demoEnv Environment_RUNNING) (demoEnv Environment_RUNNING)
    tracer := ⟨0⟩ }

/-! ## Vocabulary for statements about call logs and deadlines -/

/-- The remote method a call invokes; the three `Wait` methods count as one. -/
inductive Method where
  | GetEnvironment
  | StartEnvironment
  | AuthorizeEnvironment
  | AddPublicKey
  | Wait
  deriving DecidableEq, Repr

/-- The method of a call. -/
def Call.method : Call → Method
  | .GetEnvironment _ _ => .GetEnvironment
  | .StartEnvironment _ _ => .StartEnvironment
  | .AuthorizeEnvironment _ _ => .AuthorizeEnvironment
  | .AddPublicKey _ _ => .AddPublicKey
  | .WaitStart _ _ => .Wait
  | .WaitAuthorize _ _ => .Wait
  | .WaitAddPublicKey _ _ => .Wait

/-- The invocation `out` failed at its call number `n` (counted from 0), a call of method
`m` that returned `e`: the `n` calls before it succeeded, no call follows it, and the
invocation returned no result but the error `fmt.Errorf(text ++ "%w", e)`. -/
def FailsAt (out : Outcome) (n : Nat) (m : Method) (text : String) (e : GoError) : Prop :=
  ∃ (pre : List Event) (c : Call),
    out.1 = pre ++ [⟨c, some e⟩] ∧ pre.length = n ∧ (∀ ev ∈ pre, ev.failed = none) ∧
      c.method = m ∧ out.2 = .error (.wrapf text e)

/-- Deadline `a` is no later than deadline `b`; `none` is no deadline at all. -/
def deadlineLE : Option Nat → Option Nat → Bool
  | _, none => true
  | none, some _ => false
  | some a, some b => a ≤ b

/-- Deadline `a` is strictly earlier than deadline `b`. -/
def deadlineLT : Option Nat → Option Nat → Bool
  | none, _ => false
  | some _, none => true
  | some a, some b => a < b

/-- A value of type `sources.Source` that has both accessors but declares another kind. -/
def demoSourceValue : SourceValue :=
  { SourceKind := "some-other-kind"
    CloudShellClient := some demoSource.CloudShellClient
    GetEnvironmentName := some demoSource.GetEnvironmentName }

/-- A tool configuration bound to the source named "my-shell". -/
def demoConfig : Config :=
  { Name := "my-tool"
    Kind := "cloudshell-start"
    Source := "my-shell"
    Description := "demo"
    AuthRequired := ["google"] }

/-! ## The registries and the package initialisers -/

/-- Modelled from the spec: the registration function behind `sources.Register` and
`tools.Register`, which are not among the sources: `register(kind, factory) -> bool`
returns false if `kind` is already present and leaves the registry as it is (no
overwrite); otherwise it records the factory under `kind` and returns true. -/
def registerIn {F : Type} (registry : GoMap F) (kind : String) (factory : F) :
    Bool × GoMap F :=
  match registry.get kind with
  | some _ => (false, registry)
  | none => (true, registry.set kind factory)

namespace sources

/-- A value of type `sources.SourceConfigFactory`: the function `newConfig` of a package,
identified by the package; its body (decoding YAML into a `Config`) is not modelled. -/
structure SourceConfigFactory where
  pkg : String
  deriving DecidableEq, Repr

/-- Modelled from the spec: `sources.Register` on the registry of source kinds. -/
def Register (registry : GoMap SourceConfigFactory) (kind : String)
    (factory : SourceConfigFactory) : Bool × GoMap SourceConfigFactory :=
  registerIn registry kind factory

end sources

namespace tools

/-- A value of type `tools.ToolConfigFactory`: the function `newConfig` of a package,
identified by the package; its body (decoding YAML into a `Config`) is not modelled. -/
structure ToolConfigFactory where
  pkg : String
  deriving DecidableEq, Repr

/-- Modelled from the spec: `tools.Register` on the registry of tool kinds. -/
def Register (registry : GoMap ToolConfigFactory) (kind : String)
    (factory : ToolConfigFactory) : Bool × GoMap ToolConfigFactory :=
  registerIn registry kind factory

end tools

/-- The two process-wide registries, which the initialisers change. -/
structure Registries where
  sourceRegistry : GoMap sources.SourceConfigFactory
  toolRegistry : GoMap tools.ToolConfigFactory
  deriving DecidableEq, Repr

/-- The value of a Go panic: `fmt.Sprintf(format, args...)`, kept unrendered. -/
structure PanicValue where
  format : String
  args : List FmtArg
  deriving DecidableEq, Repr

namespace cloudshell

def newConfig : sources.SourceConfigFactory := ⟨"cloudshell"⟩

/-- The function `init` of the package; `Except.error` is the panic. -/
def init (g : Registries) : Except PanicValue Registries :=
  let (ok, registry) := sources.Register g.sourceRegistry SourceKind newConfig
  if !ok then
    .error ⟨"source kind %q already registered", [.str SourceKind]⟩
  else .ok { g with sourceRegistry := registry }

end cloudshell

namespace cloudshellstart

def newConfig : tools.ToolConfigFactory := ⟨"cloudshellstart"⟩

/-- The function `init` of the package; `Except.error` is the panic. -/
def init (g : Registries) : Except PanicValue Registries :=
  let (ok, registry) := tools.Register g.toolRegistry kind newConfig
  if !ok then
    .error ⟨"tool kind %q already registered", [.str kind]⟩
  else .ok { g with toolRegistry := registry }

end cloudshellstart

namespace cloudshelladdkey

def newConfig : tools.ToolConfigFactory := ⟨"cloudshelladdkey"⟩

/-- The function `init` of the package; `Except.error` is the panic. -/
def init (g : Registries) : Except PanicValue Registries :=
  let (ok, registry) := tools.Register g.toolRegistry kind newConfig
  if !ok then
    .error ⟨"tool kind %q already registered", [.str kind]⟩
  else .ok { g with toolRegistry := registry }

end cloudshelladdkey

namespace cloudshellauthorize

def newConfig : tools.ToolConfigFactory := ⟨"cloudshellauthorize"⟩

/-- The function `init` of the package; `Except.error` is the panic. -/
def init (g : Registries) : Except PanicValue Registries :=
  let (ok, registry) := tools.Register g.toolRegistry kind newConfig
  if !ok then
    .error ⟨"tool kind %q already registered", [.str kind]⟩
  else .ok { g with toolRegistry := registry }

end cloudshellauthorize

namespace cloudshellgetenv

def newConfig : tools.ToolConfigFactory := ⟨"cloudshellgetenv"⟩

/-- The function `init` of the package; `Except.error` is the panic. -/
def init (g : Registries) : Except PanicValue Registries :=
  let (ok, registry) := tools.Register g.toolRegistry kind newConfig
  if !ok then
    .error ⟨"tool kind %q already registered", [.str kind]⟩
  else .ok { g with toolRegistry := registry }

end cloudshellgetenv

/-- The five initialisers of the fragment. -/
inductive Initialiser where
  | source
  | addkey
  | authorize
  | getenv
  | start
  deriving DecidableEq, Repr

/-- The function `init` an initialiser stands for. -/
def Initialiser.run : Initialiser → Registries → Except PanicValue Registries
  | .source => cloudshell.init
  | .addkey => cloudshelladdkey.init
  | .authorize => cloudshellauthorize.init
  | .getenv => cloudshellgetenv.init
  | .start => cloudshellstart.init

/-- Whether the kind an initialiser registers is already in the registry it registers
with. -/
def Initialiser.registered : Initialiser → Registries → Bool
  | .source, g => decide (cloudshell.SourceKind ∈ GoMap.keys g.sourceRegistry)
  | .addkey, g => decide (cloudshelladdkey.kind ∈ GoMap.keys g.toolRegistry)
  | .authorize, g => decide (cloudshellauthorize.kind ∈ GoMap.keys g.toolRegistry)
  | .getenv, g => decide (cloudshellgetenv.kind ∈ GoMap.keys g.toolRegistry)
  | .start, g => decide (cloudshellstart.kind ∈ GoMap.keys g.toolRegistry)

/-- Run initialisers one after the other; the first panic ends the run. -/
def runInits : List Initialiser → Registries → Except PanicValue Registries
  | [], g => .ok g
  | i :: rest, g =>
    match i.run g with
    | .error p => .error p
    | .ok g' => runInits rest g'

/-- The environment a request names: the field `Name` (`Environment` for `AddPublicKey`)
of the request; a `Wait` carries an operation handle and no request. -/
def Call.envName : Call → Option String
  | .GetEnvironment _ req => some req.Name
  | .StartEnvironment _ req => some req.Name
  | .AuthorizeEnvironment _ req => some req.Name
  | .AddPublicKey _ req => some req.Environment
  | .WaitStart _ _ => none
  | .WaitAuthorize _ _ => none
  | .WaitAddPublicKey _ _ => none

/-- Fresh registries, before any initialiser has run. -/
def emptyRegistries : Registries := { sourceRegistry := [], toolRegistry := [] }

/-! ## Theorems -/

/-- C1: `GetEnvironmentName` returns "users/me/environments/default" when `User` is empty
and "users/" ++ User ++ "/environments/default" otherwise, and two sources with the same
`User` get the same name whatever their `Name`, `Kind`, `Project`, client and tracer. -/
theorem GetEnvironmentName_spec (s : cloudshell.Source) :
    (s.User = "" → s.GetEnvironmentName = "users/me/environments/default") ∧
    (s.User ≠ "" → s.GetEnvironmentName = "users/" ++ s.User ++ "/environments/default") ∧
    (∀ s' : cloudshell.Source, s'.User = s.User →
      s'.GetEnvironmentName = s.GetEnvironmentName) := by
  refine ⟨fun h => ?_, fun h => ?_, fun s' h => ?_⟩
  · simp [cloudshell.Source.GetEnvironmentName, h]
  · simp [cloudshell.Source.GetEnvironmentName, h]
  · simp [cloudshell.Source.GetEnvironmentName, h]

theorem GetEnvironmentName_spec_witness :
    demoSource.User ≠ "" ∧
    demoSource.GetEnvironmentName = "users/" ++ demoSource.User ++ "/environments/default" :=
  ⟨by decide, (GetEnvironmentName_spec demoSource).2.1 (by decide)⟩

/-- C2: when the first `GetEnvironment` of the start tool succeeds and reports `RUNNING`,
`Invoke` issues that one call and nothing else, and returns without error the single map
with status "already_running" and the seven environment fields of that fetch. -/
theorem start_already_running {P : ToolsPkg} (t : Tool P) (clock : Clock) (ctx : Context)
    (params : GoMap Value) (env : Environment)
    (hget : t.Client.GetEnvironment [] ctx { Name := t.EnvName } = .ok env)
    (hrun : env.State = Environment_RUNNING) :
    cloudshellstart.Invoke t clock ctx params =
      ([⟨.GetEnvironment ctx { Name := t.EnvName }, none⟩],
        .ok [.map [
          ("status", .str "already_running"),
          ("environment", .map [
            ("name", .str env.Name),
            ("id", .str env.Id),
            ("state", .str env.State.String),
            ("ssh_host", .str env.SshHost),
            ("ssh_port", .int32 env.SshPort),
            ("ssh_username", .str env.SshUsername),
            ("web_host", .str env.WebHost)])]]) := by
  simp [cloudshellstart.Invoke, hget, hrun, GoMap.literal, GoMap.set]

theorem start_already_running_witness :
    (demoClient (demoEnv Environment_RUNNING) (demoEnv Environment_PENDING)).GetEnvironment []
        ⟨none⟩ { Name := "users/me/environments/default" } = .ok (demoEnv Environment_RUNNING) ∧
    (demoEnv Environment_RUNNING).State = Environment_RUNNING ∧
    cloudshellstart.Invoke
        (demoTool cloudshellstart.kind
          (demoClient (demoEnv Environment_RUNNING) (demoEnv Environment_PENDING)))
        (fun _ => 0) ⟨none⟩ [] =
      ([⟨.GetEnvironment ⟨none⟩ { Name := "users/me/environments/default" }, none⟩],
        .ok [.map [
          ("status", .str "already_running"),
          ("environment", .map [
            ("name", .str "users/me/environments/default"),
            ("id", .str "default"),
            ("state", .str "RUNNING"),
            ("ssh_host", .str "ssh.example"),
            ("ssh_port", .int32 6000),
            ("ssh_username", .str "alice"),
            ("web_host", .str "web.example")])]]) :=
  ⟨rfl, rfl,
    start_already_running
      (demoTool cloudshellstart.kind
        (demoClient (demoEnv Environment_RUNNING) (demoEnv Environment_PENDING)))
      (fun _ => 0) ⟨none⟩ [] (demoEnv Environment_RUNNING) rfl rfl⟩

/-- C3: when the first `GetEnvironment` of the start tool succeeds with a state other than
`RUNNING` and the three later remote calls succeed, `Invoke` issues exactly
`GetEnvironment`, `StartEnvironment`, `Wait` on the returned operation and one more
`GetEnvironment`, in that order, and returns status "started" with the environment map of
the second fetch, whatever state and fields that fetch reports. -/
theorem start_not_running {P : ToolsPkg} (t : Tool P) (clock : Clock) (ctx : Context)
    (params : GoMap Value) (env0 env1 : Environment) (op : StartEnvironmentOperation)
    (resp : Option StartEnvironmentResponse)
    (hget : t.Client.GetEnvironment [] ctx { Name := t.EnvName } = .ok env0)
    (hstate : env0.State ≠ Environment_RUNNING)
    (hstart : t.Client.StartEnvironment
        [⟨.GetEnvironment ctx { Name := t.EnvName }, none⟩] ctx { Name := t.EnvName } = .ok op)
    (hwait : t.Client.WaitStart
        [⟨.GetEnvironment ctx { Name := t.EnvName }, none⟩,
          ⟨.StartEnvironment ctx { Name := t.EnvName }, none⟩]
        (WithTimeout ctx (clock [⟨.GetEnvironment ctx { Name := t.EnvName }, none⟩,
          ⟨.StartEnvironment ctx { Name := t.EnvName }, none⟩]) (5 * Minute)) op = .ok resp)
    (hget2 : t.Client.GetEnvironment
        [⟨.GetEnvironment ctx { Name := t.EnvName }, none⟩,
          ⟨.StartEnvironment ctx { Name := t.EnvName }, none⟩,
          ⟨.WaitStart (WithTimeout ctx (clock [⟨.GetEnvironment ctx { Name := t.EnvName }, none⟩,
            ⟨.StartEnvironment ctx { Name := t.EnvName }, none⟩]) (5 * Minute)) op, none⟩]
        (WithTimeout ctx (clock [⟨.GetEnvironment ctx { Name := t.EnvName }, none⟩,
          ⟨.StartEnvironment ctx { Name := t.EnvName }, none⟩]) (5 * Minute))
        { Name := t.EnvName } = .ok env1) :
    cloudshellstart.Invoke t clock ctx params =
      ([⟨.GetEnvironment ctx { Name := t.EnvName }, none⟩,
        ⟨.StartEnvironment ctx { Name := t.EnvName }, none⟩,
        ⟨.WaitStart (WithTimeout ctx (clock [⟨.GetEnvironment ctx { Name := t.EnvName }, none⟩,
          ⟨.StartEnvironment ctx { Name := t.EnvName }, none⟩]) (5 * Minute)) op, none⟩,
        ⟨.GetEnvironment (WithTimeout ctx (clock [⟨.GetEnvironment ctx { Name := t.EnvName }, none⟩,
          ⟨.StartEnvironment ctx { Name := t.EnvName }, none⟩]) (5 * Minute))
          { Name := t.EnvName }, none⟩],
        .ok [.map [
          ("status", .str "started"),
          ("environment", .map [
            ("name", .str env1.Name),
            ("id", .str env1.Id),
            ("state", .str env1.State.String),
            ("ssh_host", .str env1.SshHost),
            ("ssh_port", .int32 env1.SshPort),
            ("ssh_username", .str env1.SshUsername),
            ("web_host", .str env1.WebHost)])]]) := by
  simp [cloudshellstart.Invoke, hget, hstate, hstart, hwait, hget2, GoMap.literal, GoMap.set]

theorem start_not_running_witness :
    (demoEnv Environment_SUSPENDED).State ≠ Environment_RUNNING ∧
    cloudshellstart.Invoke
        (demoTool cloudshellstart.kind
          (demoClient (demoEnv Environment_SUSPENDED) (demoEnv Environment_PENDING)))
        (fun _ => 7) ⟨none⟩ [] =
      ([⟨.GetEnvironment ⟨none⟩ { Name := "users/me/environments/default" }, none⟩,
        ⟨.StartEnvironment ⟨none⟩ { Name := "users/me/environments/default" }, none⟩,
        ⟨.WaitStart ⟨some (7 + 5 * Minute)⟩ ⟨1⟩, none⟩,
        ⟨.GetEnvironment ⟨some (7 + 5 * Minute)⟩ { Name := "users/me/environments/default" },
          none⟩],
        .ok [.map [
          ("status", .str "started"),
          ("environment", .map [
            ("name", .str "users/me/environments/default"),
            ("id", .str "default"),
            ("state", .str "PENDING"),
            ("ssh_host", .str "ssh.example"),
            ("ssh_port", .int32 6000),
            ("ssh_username", .str "alice"),
            ("web_host", .str "web.example")])]]) :=
  ⟨by decide,
    start_not_running
      (demoTool cloudshellstart.kind
        (demoClient (demoEnv Environment_SUSPENDED) (demoEnv Environment_PENDING)))
      (fun _ => 7) ⟨none⟩ [] (demoEnv Environment_SUSPENDED) (demoEnv Environment_PENDING) ⟨1⟩
      (some ⟨none⟩) rfl (by decide) rfl rfl rfl⟩

/-- C4: the add-key tool fails with the invalid-or-missing-parameter error exactly when the
value under "public_key" is absent, is not a string, or is the empty string; in that case
it issues no remote call at all and returns no result, only the error. -/
theorem addkey_invalid_parameter {P : ToolsPkg} (t : Tool P) (ctx : Context)
    (mapParams : GoMap Value) :
    ((cloudshelladdkey.Invoke t ctx mapParams).2 =
        .error (.errorf "invalid or missing '%s' parameter; expected a non-empty string"
          [.str "public_key"]) ↔
      (mapParams.get "public_key" = none ∨
        (∃ v, mapParams.get "public_key" = some v ∧ ∀ s, v ≠ .str s) ∨
        mapParams.get "public_key" = some (.str ""))) ∧
    ((mapParams.get "public_key" = none ∨
        (∃ v, mapParams.get "public_key" = some v ∧ ∀ s, v ≠ .str s) ∨
        mapParams.get "public_key" = some (.str "")) →
      cloudshelladdkey.Invoke t ctx mapParams =
        ([], .error (.errorf "invalid or missing '%s' parameter; expected a non-empty string"
          [.str "public_key"]))) := by
  have key : ∀ o : Option Value,
      (o = none ∨ (∃ v, o = some v ∧ ∀ s, v ≠ .str s) ∨ o = some (.str "")) ↔
        ((assertString o).2 = false ∨ (assertString o).1 = "") := by
    intro o
    rcases o with _ | v
    · simp [assertString]
    · cases v <;> simp [assertString]
  rw [key]
  have unfolded : cloudshelladdkey.publicKeyKey = "public_key" := rfl
  by_cases hc : (assertString (mapParams.get "public_key")).2 = false ∨
      (assertString (mapParams.get "public_key")).1 = ""
  · simp [cloudshelladdkey.Invoke, unfolded, hc]
  · simp only [hc, iff_false, false_imp_iff, and_true]
    simp only [cloudshelladdkey.Invoke, unfolded]
    simp only [not_or, Bool.not_eq_false] at hc
    simp only [hc.1, hc.2, Bool.not_true, Bool.false_or, decide_False, Bool.false_eq_true,
      if_false]
    split
    · simp
    · split
      · simp
      · split <;> simp

theorem addkey_invalid_parameter_witness :
    GoMap.get [("public_key", Value.str "")] "public_key" = some (.str "") ∧
    cloudshelladdkey.Invoke
        (demoTool cloudshelladdkey.kind
          (demoClient (demoEnv Environment_RUNNING) (demoEnv Environment_RUNNING)))
        ⟨none⟩ [("public_key", .str "")] =
      ([], .error (.errorf "invalid or missing '%s' parameter; expected a non-empty string"
        [.str "public_key"])) :=
  ⟨rfl,
    (addkey_invalid_parameter
      (demoTool cloudshelladdkey.kind
        (demoClient (demoEnv Environment_RUNNING) (demoEnv Environment_RUNNING)))
      ⟨none⟩ [("public_key", .str "")]).2 (Or.inr (Or.inr rfl))⟩

/-- Two texts that differ at a position inside both stay different whatever is appended. -/
theorem append_ne_of_differ (a b x y : String) (i : Nat)
    (h : i < a.data.length ∧ i < b.data.length ∧ a.data.get? i ≠ b.data.get? i) :
    a ++ x ≠ b ++ y := by
  intro heq
  have hd : a.data ++ x.data = b.data ++ y.data := by
    have := congrArg String.data heq
    simpa [String.data_append] using this
  have h1 := congrArg (fun l => l.get? i) hd
  simp only [List.get?_eq_getElem?] at h1
  rw [List.getElem?_append_left h.1, List.getElem?_append_left h.2.1] at h1
  exact h.2.2 (by simpa [List.get?_eq_getElem?] using h1)

/-- Every failure of the start tool: which call failed, that it was the last call, and the
error returned. -/
theorem start_failure {P : ToolsPkg} (t : Tool P) (clock : Clock) (ctx : Context)
    (params : GoMap Value) (ev : Event) (e : GoError)
    (hev : ev ∈ (cloudshellstart.Invoke t clock ctx params).1) (hf : ev.failed = some e) :
    FailsAt (cloudshellstart.Invoke t clock ctx params) 0 .GetEnvironment
        "failed to get environment: " e ∨
      FailsAt (cloudshellstart.Invoke t clock ctx params) 1 .StartEnvironment
        "failed to start environment: " e ∨
      FailsAt (cloudshellstart.Invoke t clock ctx params) 2 .Wait
        "failed waiting for environment to start: " e ∨
      FailsAt (cloudshellstart.Invoke t clock ctx params) 3 .GetEnvironment
        "failed to get environment after starting: " e := by
  rcases h1 : t.Client.GetEnvironment [] ctx { Name := t.EnvName } with err | env
  · left
    simp only [cloudshellstart.Invoke, h1, List.mem_singleton] at hev ⊢
    subst hev
    simp only [Option.some.injEq] at hf
    subst hf
    exact ⟨[], _, rfl, rfl, by simp, rfl, rfl⟩
  · by_cases hrun : env.State = Environment_RUNNING
    · simp only [cloudshellstart.Invoke, h1, hrun, if_true, List.mem_singleton] at hev
      subst hev
      simp at hf
    · rcases h2 : t.Client.StartEnvironment [⟨.GetEnvironment ctx { Name := t.EnvName }, none⟩]
          ctx { Name := t.EnvName } with err | op
      · right; left
        simp only [cloudshellstart.Invoke, h1, hrun, if_false, h2] at hev ⊢
        simp only [List.mem_append, List.mem_singleton] at hev
        rcases hev with hev | hev
        · subst hev; simp at hf
        · subst hev
          simp only [Option.some.injEq] at hf
          subst hf
          exact ⟨_, _, rfl, rfl, by simp, rfl, rfl⟩
      · rcases h3 : t.Client.WaitStart
            [⟨.GetEnvironment ctx { Name := t.EnvName }, none⟩,
              ⟨.StartEnvironment ctx { Name := t.EnvName }, none⟩]
            (WithTimeout ctx (clock [⟨.GetEnvironment ctx { Name := t.EnvName }, none⟩,
              ⟨.StartEnvironment ctx { Name := t.EnvName }, none⟩]) (5 * Minute)) op
          with err | resp
        · right; right; left
          simp only [cloudshellstart.Invoke, h1, hrun, if_false, h2, List.singleton_append,
            h3] at hev ⊢
          simp only [List.cons_append, List.nil_append, List.mem_cons, List.mem_singleton,
            List.not_mem_nil, or_false] at hev
          rcases hev with hev | hev | hev
          · subst hev; simp at hf
          · subst hev; simp at hf
          · subst hev
            simp only [Option.some.injEq] at hf
            subst hf
            exact ⟨_, _, rfl, rfl, by simp, rfl, rfl⟩
        · rcases h4 : t.Client.GetEnvironment
              [⟨.GetEnvironment ctx { Name := t.EnvName }, none⟩,
                ⟨.StartEnvironment ctx { Name := t.EnvName }, none⟩,
                ⟨.WaitStart (WithTimeout ctx
                  (clock [⟨.GetEnvironment ctx { Name := t.EnvName }, none⟩,
                    ⟨.StartEnvironment ctx { Name := t.EnvName }, none⟩]) (5 * Minute)) op,
                  none⟩]
              (WithTimeout ctx (clock [⟨.GetEnvironment ctx { Name := t.EnvName }, none⟩,
                ⟨.StartEnvironment ctx { Name := t.EnvName }, none⟩]) (5 * Minute))
              { Name := t.EnvName } with err | env1
          · right; right; right
            simp only [cloudshellstart.Invoke, h1, hrun, if_false, h2, List.singleton_append,
              h3, List.cons_append, List.nil_append, h4] at hev ⊢
            simp only [List.mem_cons, List.mem_singleton, List.not_mem_nil, or_false] at hev
            rcases hev with hev | hev | hev | hev
            · subst hev; simp at hf
            · subst hev; simp at hf
            · subst hev; simp at hf
            · subst hev
              simp only [Option.some.injEq] at hf
              subst hf
              exact ⟨[_, _, _], _, rfl, rfl, by simp, rfl, rfl⟩
          · simp only [cloudshellstart.Invoke, h1, hrun, if_false, h2, List.singleton_append,
              h3, List.cons_append, List.nil_append, h4] at hev
            simp only [List.mem_cons, List.mem_singleton, List.not_mem_nil, or_false] at hev
            rcases hev with hev | hev | hev | hev <;> (subst hev; simp at hf)

/-- Every failure of a remote call of the add-key tool: which call failed, that it was the
last call, and the error returned. -/
theorem addkey_failure {P : ToolsPkg} (t : Tool P) (ctx : Context)
    (mapParams : GoMap Value) (ev : Event) (e : GoError)
    (hev : ev ∈ (cloudshelladdkey.Invoke t ctx mapParams).1) (hf : ev.failed = some e) :
    FailsAt (cloudshelladdkey.Invoke t ctx mapParams) 0 .AddPublicKey
        "failed to add public key: " e ∨
      FailsAt (cloudshelladdkey.Invoke t ctx mapParams) 1 .Wait
        "failed waiting for add public key operation: " e ∨
      FailsAt (cloudshelladdkey.Invoke t ctx mapParams) 2 .GetEnvironment
        "failed to get environment after adding key: " e := by
  rcases hq : assertString (GoMap.get mapParams cloudshelladdkey.publicKeyKey)
    with ⟨publicKey, ok⟩
  by_cases hc : (!ok || decide (publicKey = "")) = true
  · simp [cloudshelladdkey.Invoke, hq, hc] at hev
  · rcases h1 : t.Client.AddPublicKey [] ctx { Environment := t.EnvName, Key := publicKey }
      with err | op
    · left
      simp only [cloudshelladdkey.Invoke, hq, hc, Bool.false_eq_true, if_false, h1, List.mem_singleton] at hev ⊢
      subst hev
      simp only [Option.some.injEq] at hf
      subst hf
      exact ⟨[], _, rfl, rfl, by simp, rfl, rfl⟩
    · rcases h2 : t.Client.WaitAddPublicKey
          [⟨.AddPublicKey ctx { Environment := t.EnvName, Key := publicKey }, none⟩] ctx op
        with err | resp
      · right; left
        simp only [cloudshelladdkey.Invoke, hq, hc, Bool.false_eq_true, if_false, h1, h2] at hev ⊢
        simp only [List.mem_append, List.mem_singleton] at hev
        rcases hev with hev | hev
        · subst hev; simp at hf
        · subst hev
          simp only [Option.some.injEq] at hf
          subst hf
          exact ⟨[_], _, rfl, rfl, by simp, rfl, rfl⟩
      · rcases h3 : t.Client.GetEnvironment
            [⟨.AddPublicKey ctx { Environment := t.EnvName, Key := publicKey }, none⟩,
              ⟨.WaitAddPublicKey ctx op, none⟩] ctx { Name := t.EnvName } with err | env
        · right; right
          simp only [cloudshelladdkey.Invoke, hq, hc, Bool.false_eq_true, if_false, h1, h2, List.singleton_append,
            h3] at hev ⊢
          simp only [List.cons_append, List.nil_append, List.mem_cons, List.mem_singleton,
            List.not_mem_nil, or_false] at hev
          rcases hev with hev | hev | hev
          · subst hev; simp at hf
          · subst hev; simp at hf
          · subst hev
            simp only [Option.some.injEq] at hf
            subst hf
            exact ⟨[_, _], _, rfl, rfl, by simp, rfl, rfl⟩
        · simp only [cloudshelladdkey.Invoke, hq, hc, Bool.false_eq_true, if_false, h1, h2, List.singleton_append,
            h3] at hev
          simp only [List.cons_append, List.nil_append, List.mem_cons, List.mem_singleton,
            List.not_mem_nil, or_false] at hev
          rcases hev with hev | hev | hev <;> (subst hev; simp at hf)

/-- Every failure of a remote call of the authorize tool: which call failed, that it was
the last call, and the error returned. -/
theorem authorize_failure {P : ToolsPkg} (t : Tool P) (clock : Clock) (ctx : Context)
    (mapParams : GoMap Value) (ev : Event) (e : GoError)
    (hev : ev ∈ (cloudshellauthorize.Invoke t clock ctx mapParams).1)
    (hf : ev.failed = some e) :
    FailsAt (cloudshellauthorize.Invoke t clock ctx mapParams) 0 .AuthorizeEnvironment
        "failed to authorize environment: " e ∨
      FailsAt (cloudshellauthorize.Invoke t clock ctx mapParams) 1 .Wait
        "authorization failed: " e := by
  generalize hreq :
    (if (assertString (GoMap.get mapParams cloudshellauthorize.accessTokenKey)).1 ≠ "" then
      ({ Name := t.EnvName,
         AccessToken := (assertString (GoMap.get mapParams cloudshellauthorize.accessTokenKey)).1 } :
        AuthorizeEnvironmentRequest)
     else { Name := t.EnvName }) = req at *
  rcases h1 : t.Client.AuthorizeEnvironment [] (WithTimeout ctx (clock []) (30 * Second)) req
    with err | op
  · left
    simp only [cloudshellauthorize.Invoke, hreq, h1, List.mem_singleton] at hev ⊢
    subst hev
    simp only [Option.some.injEq] at hf
    subst hf
    exact ⟨[], _, rfl, rfl, by simp, rfl, rfl⟩
  · rcases h2 : t.Client.WaitAuthorize
        [⟨.AuthorizeEnvironment (WithTimeout ctx (clock []) (30 * Second)) req, none⟩]
        (WithTimeout ctx (clock []) (30 * Second)) op with err | resp
    · right
      simp only [cloudshellauthorize.Invoke, hreq, h1, h2] at hev ⊢
      simp only [List.mem_append, List.mem_singleton] at hev
      rcases hev with hev | hev
      · subst hev; simp at hf
      · subst hev
        simp only [Option.some.injEq] at hf
        subst hf
        exact ⟨[_], _, rfl, rfl, by simp, rfl, rfl⟩
    · simp only [cloudshellauthorize.Invoke, hreq, h1, h2] at hev
      simp only [List.mem_append, List.mem_singleton] at hev
      rcases hev with hev | hev <;> (subst hev; simp at hf)

/-- C5: in the start, add-key and authorize tools, a remote call that fails is the last call
of the invocation, the calls before it succeeded, and `Invoke` returns no result but an
error that wraps the remote error behind a text fixed by the failing phase; the texts of
one tool yield pairwise different messages whatever the remote errors say. -/
theorem remote_failure_surfaces {P : ToolsPkg} (t : Tool P) (clock : Clock) (ctx : Context)
    (mapParams : GoMap Value) (sprintf : String → List FmtArg → String) (ev : Event)
    (e : GoError) :
    (ev ∈ (cloudshellstart.Invoke t clock ctx mapParams).1 → ev.failed = some e →
      FailsAt (cloudshellstart.Invoke t clock ctx mapParams) 0 .GetEnvironment
          "failed to get environment: " e ∨
        FailsAt (cloudshellstart.Invoke t clock ctx mapParams) 1 .StartEnvironment
          "failed to start environment: " e ∨
        FailsAt (cloudshellstart.Invoke t clock ctx mapParams) 2 .Wait
          "failed waiting for environment to start: " e ∨
        FailsAt (cloudshellstart.Invoke t clock ctx mapParams) 3 .GetEnvironment
          "failed to get environment after starting: " e) ∧
    (ev ∈ (cloudshelladdkey.Invoke t ctx mapParams).1 → ev.failed = some e →
      FailsAt (cloudshelladdkey.Invoke t ctx mapParams) 0 .AddPublicKey
          "failed to add public key: " e ∨
        FailsAt (cloudshelladdkey.Invoke t ctx mapParams) 1 .Wait
          "failed waiting for add public key operation: " e ∨
        FailsAt (cloudshelladdkey.Invoke t ctx mapParams) 2 .GetEnvironment
          "failed to get environment after adding key: " e) ∧
    (ev ∈ (cloudshellauthorize.Invoke t clock ctx mapParams).1 → ev.failed = some e →
      FailsAt (cloudshellauthorize.Invoke t clock ctx mapParams) 0 .AuthorizeEnvironment
          "failed to authorize environment: " e ∨
        FailsAt (cloudshellauthorize.Invoke t clock ctx mapParams) 1 .Wait
          "authorization failed: " e) ∧
    (∀ text : String, (GoError.wrapf text e).Unwrap = some e ∧
      (GoError.wrapf text e).Error sprintf = text ++ e.Error sprintf) ∧
    List.Pairwise
      (fun a b => ∀ e1 e2 : GoError,
        (GoError.wrapf a e1).Error sprintf ≠ (GoError.wrapf b e2).Error sprintf)
      ["failed to get environment: ", "failed to start environment: ",
        "failed waiting for environment to start: ",
        "failed to get environment after starting: "] ∧
    List.Pairwise
      (fun a b => ∀ e1 e2 : GoError,
        (GoError.wrapf a e1).Error sprintf ≠ (GoError.wrapf b e2).Error sprintf)
      ["failed to add public key: ", "failed waiting for add public key operation: ",
        "failed to get environment after adding key: "] ∧
    List.Pairwise
      (fun a b => ∀ e1 e2 : GoError,
        (GoError.wrapf a e1).Error sprintf ≠ (GoError.wrapf b e2).Error sprintf)
      ["failed to authorize environment: ", "authorization failed: "] := by
  refine ⟨start_failure t clock ctx mapParams ev e, addkey_failure t ctx mapParams ev e,
    authorize_failure t clock ctx mapParams ev e, fun text => ⟨rfl, rfl⟩, ?_, ?_, ?_⟩
  · simp only [List.pairwise_cons, List.mem_cons, List.mem_singleton, List.not_mem_nil,
      forall_eq_or_imp, forall_eq, GoError.Error, IsEmpty.forall_iff, implies_true,
      List.Pairwise.nil, and_true, or_false]
    refine ⟨⟨?_, ?_, ?_⟩, ⟨?_, ?_⟩, ?_⟩ <;> intro e1 e2
    · exact append_ne_of_differ _ _ _ _ 10 (by decide)
    · exact append_ne_of_differ _ _ _ _ 7 (by decide)
    · exact append_ne_of_differ _ _ _ _ 25 (by decide)
    · exact append_ne_of_differ _ _ _ _ 7 (by decide)
    · exact append_ne_of_differ _ _ _ _ 10 (by decide)
    · exact append_ne_of_differ _ _ _ _ 7 (by decide)
  · simp only [List.pairwise_cons, List.mem_cons, List.mem_singleton, List.not_mem_nil,
      forall_eq_or_imp, forall_eq, GoError.Error, IsEmpty.forall_iff, implies_true,
      List.Pairwise.nil, and_true, or_false]
    refine ⟨⟨?_, ?_⟩, ?_⟩ <;> intro e1 e2
    · exact append_ne_of_differ _ _ _ _ 7 (by decide)
    · exact append_ne_of_differ _ _ _ _ 10 (by decide)
    · exact append_ne_of_differ _ _ _ _ 7 (by decide)
  · simp only [List.pairwise_cons, List.mem_cons, List.mem_singleton, List.not_mem_nil,
      forall_eq_or_imp, forall_eq, GoError.Error, IsEmpty.forall_iff, implies_true,
      List.Pairwise.nil, and_true, or_false]
    intro e1 e2
    exact append_ne_of_differ _ _ _ _ 0 (by decide)

theorem remote_failure_surfaces_witness :
    (⟨.WaitStart ⟨some (0 + 5 * Minute)⟩ ⟨1⟩, some (.remote "deadline exceeded")⟩ : Event) ∈
        (cloudshellstart.Invoke
          (demoTool cloudshellstart.kind (failingClient 2 (.remote "deadline exceeded")))
          (fun _ => 0) ⟨none⟩ []).1 ∧
      (FailsAt
          (cloudshellstart.Invoke
            (demoTool cloudshellstart.kind (failingClient 2 (.remote "deadline exceeded")))
            (fun _ => 0) ⟨none⟩ [])
          0 .GetEnvironment "failed to get environment: " (.remote "deadline exceeded") ∨
        FailsAt
          (cloudshellstart.Invoke
            (demoTool cloudshellstart.kind (failingClient 2 (.remote "deadline exceeded")))
            (fun _ => 0) ⟨none⟩ [])
          1 .StartEnvironment "failed to start environment: " (.remote "deadline exceeded") ∨
        FailsAt
          (cloudshellstart.Invoke
            (demoTool cloudshellstart.kind (failingClient 2 (.remote "deadline exceeded")))
            (fun _ => 0) ⟨none⟩ [])
          2 .Wait "failed waiting for environment to start: " (.remote "deadline exceeded") ∨
        FailsAt
          (cloudshellstart.Invoke
            (demoTool cloudshellstart.kind (failingClient 2 (.remote "deadline exceeded")))
            (fun _ => 0) ⟨none⟩ [])
          3 .GetEnvironment "failed to get environment after starting: "
          (.remote "deadline exceeded")) :=
  ⟨by decide,
    (remote_failure_surfaces
      (demoTool cloudshellstart.kind (failingClient 2 (.remote "deadline exceeded")))
      (fun _ => 0) ⟨none⟩ [] (fun format _ => format)
      ⟨.WaitStart ⟨some (0 + 5 * Minute)⟩ ⟨1⟩, some (.remote "deadline exceeded")⟩
      (.remote "deadline exceeded")).1 (by decide) rfl⟩

/-- A successful invocation of the add-key tool: its three calls, and the result built from
the environment fetched last. -/
theorem addkey_success {P : ToolsPkg} (t : Tool P) (ctx : Context) (mapParams : GoMap Value)
    (r : List Value) (hr : (cloudshelladdkey.Invoke t ctx mapParams).2 = .ok r) :
    ∃ (key : String) (op : AddPublicKeyOperation) (resp : Option AddPublicKeyResponse)
      (env : Environment),
      mapParams.get "public_key" = some (.str key) ∧
      (cloudshelladdkey.Invoke t ctx mapParams).1 =
        [⟨.AddPublicKey ctx { Environment := t.EnvName, Key := key }, none⟩,
          ⟨.WaitAddPublicKey ctx op, none⟩,
          ⟨.GetEnvironment ctx { Name := t.EnvName }, none⟩] ∧
      t.Client.WaitAddPublicKey
        [⟨.AddPublicKey ctx { Environment := t.EnvName, Key := key }, none⟩] ctx op = .ok resp ∧
      t.Client.GetEnvironment
        [⟨.AddPublicKey ctx { Environment := t.EnvName, Key := key }, none⟩,
          ⟨.WaitAddPublicKey ctx op, none⟩] ctx { Name := t.EnvName } = .ok env ∧
      r = [.map (
        [("status", .str "key_added"),
          ("environment", .map [
            ("name", .str env.Name),
            ("id", .str env.Id),
            ("state", .str env.State.String),
            ("ssh_host", .str env.SshHost),
            ("ssh_port", .int32 env.SshPort),
            ("ssh_username", .str env.SshUsername)])] ++
        (if env.PublicKeys.length > 0 then
          [("public_keys_count", .int env.PublicKeys.length)] else []))] := by
  have unfolded : cloudshelladdkey.publicKeyKey = "public_key" := rfl
  rcases hg : GoMap.get mapParams "public_key" with _ | v
  · simp [cloudshelladdkey.Invoke, unfolded, hg, assertString] at hr
  · have hstr : ∃ key, v = .str key ∧ key ≠ "" := by
      cases v <;> simp [cloudshelladdkey.Invoke, unfolded, hg, assertString] at hr ⊢
      by_contra hk
      simp [hk] at hr
    obtain ⟨key, rfl, hkey⟩ := hstr
    rcases h1 : t.Client.AddPublicKey [] ctx { Environment := t.EnvName, Key := key }
      with err | op
    · simp [cloudshelladdkey.Invoke, unfolded, hg, assertString, hkey, h1] at hr
    · rcases h2 : t.Client.WaitAddPublicKey
          [⟨.AddPublicKey ctx { Environment := t.EnvName, Key := key }, none⟩] ctx op
        with err | resp
      · simp [cloudshelladdkey.Invoke, unfolded, hg, assertString, hkey, h1, h2] at hr
      · rcases h3 : t.Client.GetEnvironment
            [⟨.AddPublicKey ctx { Environment := t.EnvName, Key := key }, none⟩,
              ⟨.WaitAddPublicKey ctx op, none⟩] ctx { Name := t.EnvName } with err | env
        · simp [cloudshelladdkey.Invoke, unfolded, hg, assertString, hkey, h1, h2, h3] at hr
        · refine ⟨key, op, resp, env, rfl, ?_, h2, h3, ?_⟩
          · simp [cloudshelladdkey.Invoke, unfolded, hg, assertString, hkey, h1, h2, h3]
          · simp only [cloudshelladdkey.Invoke, unfolded, hg, assertString, hkey, h1, h2,
              List.singleton_append, h3] at hr
            by_cases hk : env.PublicKeys.length > 0
            · simp [hkey, hk, GoMap.literal, GoMap.set] at hr ⊢
              exact hr.symm
            · simp [hkey, hk, GoMap.literal, GoMap.set] at hr ⊢
              simpa using hr.symm

/-- A successful invocation of the start tool that issued `StartEnvironment`: its four
calls, and the result built from the environment fetched last. -/
theorem start_success_after_mutation {P : ToolsPkg} (t : Tool P) (clock : Clock)
    (ctx : Context) (params : GoMap Value) (r : List Value)
    (hr : (cloudshellstart.Invoke t clock ctx params).2 = .ok r)
    (hm : ∃ ev ∈ (cloudshellstart.Invoke t clock ctx params).1,
      ev.call.method = .StartEnvironment) :
    ∃ (op : StartEnvironmentOperation) (resp : Option StartEnvironmentResponse)
      (env : Environment) (ctx5 : Context),
      ctx5 = WithTimeout ctx (clock [⟨.GetEnvironment ctx { Name := t.EnvName }, none⟩,
        ⟨.StartEnvironment ctx { Name := t.EnvName }, none⟩]) (5 * Minute) ∧
      (cloudshellstart.Invoke t clock ctx params).1 =
        [⟨.GetEnvironment ctx { Name := t.EnvName }, none⟩,
          ⟨.StartEnvironment ctx { Name := t.EnvName }, none⟩,
          ⟨.WaitStart ctx5 op, none⟩,
          ⟨.GetEnvironment ctx5 { Name := t.EnvName }, none⟩] ∧
      t.Client.WaitStart
        [⟨.GetEnvironment ctx { Name := t.EnvName }, none⟩,
          ⟨.StartEnvironment ctx { Name := t.EnvName }, none⟩] ctx5 op = .ok resp ∧
      t.Client.GetEnvironment
        [⟨.GetEnvironment ctx { Name := t.EnvName }, none⟩,
          ⟨.StartEnvironment ctx { Name := t.EnvName }, none⟩,
          ⟨.WaitStart ctx5 op, none⟩] ctx5 { Name := t.EnvName } = .ok env ∧
      r = [.map [
        ("status", .str "started"),
        ("environment", .map [
          ("name", .str env.Name),
          ("id", .str env.Id),
          ("state", .str env.State.String),
          ("ssh_host", .str env.SshHost),
          ("ssh_port", .int32 env.SshPort),
          ("ssh_username", .str env.SshUsername),
          ("web_host", .str env.WebHost)])]] := by
  rcases h1 : t.Client.GetEnvironment [] ctx { Name := t.EnvName } with err | env0
  · simp [cloudshellstart.Invoke, h1] at hr
  · by_cases hrun : env0.State = Environment_RUNNING
    · obtain ⟨ev, hev, hmeth⟩ := hm
      simp only [cloudshellstart.Invoke, h1, hrun, if_true, List.mem_singleton] at hev
      subst hev
      simp [Call.method] at hmeth
    · rcases h2 : t.Client.StartEnvironment [⟨.GetEnvironment ctx { Name := t.EnvName }, none⟩]
          ctx { Name := t.EnvName } with err | op
      · simp [cloudshellstart.Invoke, h1, hrun, h2] at hr
      · rcases h3 : t.Client.WaitStart
            [⟨.GetEnvironment ctx { Name := t.EnvName }, none⟩,
              ⟨.StartEnvironment ctx { Name := t.EnvName }, none⟩]
            (WithTimeout ctx (clock [⟨.GetEnvironment ctx { Name := t.EnvName }, none⟩,
              ⟨.StartEnvironment ctx { Name := t.EnvName }, none⟩]) (5 * Minute)) op
          with err | resp
        · simp [cloudshellstart.Invoke, h1, hrun, h2, h3] at hr
        · rcases h4 : t.Client.GetEnvironment
              [⟨.GetEnvironment ctx { Name := t.EnvName }, none⟩,
                ⟨.StartEnvironment ctx { Name := t.EnvName }, none⟩,
                ⟨.WaitStart (WithTimeout ctx
                  (clock [⟨.GetEnvironment ctx { Name := t.EnvName }, none⟩,
                    ⟨.StartEnvironment ctx { Name := t.EnvName }, none⟩]) (5 * Minute)) op,
                  none⟩]
              (WithTimeout ctx (clock [⟨.GetEnvironment ctx { Name := t.EnvName }, none⟩,
                ⟨.StartEnvironment ctx { Name := t.EnvName }, none⟩]) (5 * Minute))
              { Name := t.EnvName } with err | env
          · simp [cloudshellstart.Invoke, h1, hrun, h2, h3, h4] at hr
          · refine ⟨op, resp, env, _, rfl, ?_, h3, h4, ?_⟩
            · simp [cloudshellstart.Invoke, h1, hrun, h2, h3, h4]
            · simp [cloudshellstart.Invoke, h1, hrun, h2, h3, h4, GoMap.literal,
                GoMap.set] at hr
              exact hr.symm

/-- A successful invocation of the authorize tool: its two calls, both under the 30-second
context, and the result built from the payload the wait returned. -/
theorem authorize_success {P : ToolsPkg} (t : Tool P) (clock : Clock) (ctx : Context)
    (mapParams : GoMap Value) (r : List Value)
    (hr : (cloudshellauthorize.Invoke t clock ctx mapParams).2 = .ok r) :
    ∃ (req : AuthorizeEnvironmentRequest) (op : AuthorizeEnvironmentOperation)
      (resp : Option AuthorizeEnvironmentResponse) (ctx30 : Context),
      ctx30 = WithTimeout ctx (clock []) (30 * Second) ∧
      (cloudshellauthorize.Invoke t clock ctx mapParams).1 =
        [⟨.AuthorizeEnvironment ctx30 req, none⟩, ⟨.WaitAuthorize ctx30 op, none⟩] ∧
      t.Client.WaitAuthorize [⟨.AuthorizeEnvironment ctx30 req, none⟩] ctx30 op = .ok resp ∧
      r = [.map (
        ("status", .str "authorized") ::
          (match resp with
            | some payload => [("response", .authorizeResponse payload)]
            | none => []))] := by
  generalize hreq :
    (if (assertString (GoMap.get mapParams cloudshellauthorize.accessTokenKey)).1 ≠ "" then
      ({ Name := t.EnvName,
         AccessToken := (assertString (GoMap.get mapParams cloudshellauthorize.accessTokenKey)).1 } :
        AuthorizeEnvironmentRequest)
     else { Name := t.EnvName }) = req at *
  rcases h1 : t.Client.AuthorizeEnvironment [] (WithTimeout ctx (clock []) (30 * Second)) req
    with err | op
  · simp [cloudshellauthorize.Invoke, hreq, h1] at hr
  · rcases h2 : t.Client.WaitAuthorize
        [⟨.AuthorizeEnvironment (WithTimeout ctx (clock []) (30 * Second)) req, none⟩]
        (WithTimeout ctx (clock []) (30 * Second)) op with err | resp
    · simp [cloudshellauthorize.Invoke, hreq, h1, h2] at hr
    · refine ⟨req, op, resp, _, rfl, ?_, h2, ?_⟩
      · simp [cloudshellauthorize.Invoke, hreq, h1, h2]
      · simp only [cloudshellauthorize.Invoke, hreq, h1, h2] at hr
        cases resp <;> simp [GoMap.literal, GoMap.set] at hr ⊢ <;> exact hr.symm

/-- C6, as stated, fails for the authorize tool: an invocation that succeeds after issuing
`AuthorizeEnvironment` issues no `GetEnvironment` at all, and its result carries the
payload the wait returned. -/
theorem authorize_refetch_counterexample :
    (cloudshellauthorize.Invoke
        (demoTool cloudshellauthorize.kind
          (demoClient (demoEnv Environment_RUNNING) (demoEnv Environment_RUNNING)))
        (fun _ => 0) ⟨none⟩ []).2 =
      .ok [.map [("status", .str "authorized"), ("response", .authorizeResponse ⟨⟩)]] ∧
    (∃ ev ∈ (cloudshellauthorize.Invoke
        (demoTool cloudshellauthorize.kind
          (demoClient (demoEnv Environment_RUNNING) (demoEnv Environment_RUNNING)))
        (fun _ => 0) ⟨none⟩ []).1, ev.call.method = .AuthorizeEnvironment) ∧
    ¬ ∃ ev ∈ (cloudshellauthorize.Invoke
        (demoTool cloudshellauthorize.kind
          (demoClient (demoEnv Environment_RUNNING) (demoEnv Environment_RUNNING)))
        (fun _ => 0) ⟨none⟩ []).1, ev.call.method = .GetEnvironment :=
  ⟨rfl, by decide, by decide⟩

/-- C6 (amended): a successful add-key invocation, and a successful start invocation that
issued `StartEnvironment`, consist of the mutation, the wait and then one `GetEnvironment`,
and the result is built from the environment that fetch returned, whatever payload the
wait returned; the wait of add-key runs under the context of the caller, the wait and
re-fetch of start under the 5-minute context.  A successful authorize invocation consists
of `AuthorizeEnvironment` and the wait, both under the 30-second context, issues no
`GetEnvironment`, and its result is the status with the payload of the wait when that is
not nil. -/
theorem lro_mutate_wait_refetch {P : ToolsPkg} (t : Tool P) (clock : Clock) (ctx : Context)
    (mapParams : GoMap Value) (r : List Value) :
    ((cloudshelladdkey.Invoke t ctx mapParams).2 = .ok r →
      ∃ (key : String) (op : AddPublicKeyOperation) (resp : Option AddPublicKeyResponse)
        (env : Environment),
        (cloudshelladdkey.Invoke t ctx mapParams).1 =
          [⟨.AddPublicKey ctx { Environment := t.EnvName, Key := key }, none⟩,
            ⟨.WaitAddPublicKey ctx op, none⟩,
            ⟨.GetEnvironment ctx { Name := t.EnvName }, none⟩] ∧
        t.Client.WaitAddPublicKey
          [⟨.AddPublicKey ctx { Environment := t.EnvName, Key := key }, none⟩] ctx op =
            .ok resp ∧
        t.Client.GetEnvironment
          [⟨.AddPublicKey ctx { Environment := t.EnvName, Key := key }, none⟩,
            ⟨.WaitAddPublicKey ctx op, none⟩] ctx { Name := t.EnvName } = .ok env ∧
        r = [.map (
          [("status", .str "key_added"),
            ("environment", .map [
              ("name", .str env.Name),
              ("id", .str env.Id),
              ("state", .str env.State.String),
              ("ssh_host", .str env.SshHost),
              ("ssh_port", .int32 env.SshPort),
              ("ssh_username", .str env.SshUsername)])] ++
          (if env.PublicKeys.length > 0 then
            [("public_keys_count", .int env.PublicKeys.length)] else []))]) ∧
    ((cloudshellstart.Invoke t clock ctx mapParams).2 = .ok r →
      (∃ ev ∈ (cloudshellstart.Invoke t clock ctx mapParams).1,
        ev.call.method = .StartEnvironment) →
      ∃ (op : StartEnvironmentOperation) (resp : Option StartEnvironmentResponse)
        (env : Environment) (ctx5 : Context),
        ctx5 = WithTimeout ctx (clock [⟨.GetEnvironment ctx { Name := t.EnvName }, none⟩,
          ⟨.StartEnvironment ctx { Name := t.EnvName }, none⟩]) (5 * Minute) ∧
        (cloudshellstart.Invoke t clock ctx mapParams).1 =
          [⟨.GetEnvironment ctx { Name := t.EnvName }, none⟩,
            ⟨.StartEnvironment ctx { Name := t.EnvName }, none⟩,
            ⟨.WaitStart ctx5 op, none⟩,
            ⟨.GetEnvironment ctx5 { Name := t.EnvName }, none⟩] ∧
        t.Client.WaitStart
          [⟨.GetEnvironment ctx { Name := t.EnvName }, none⟩,
            ⟨.StartEnvironment ctx { Name := t.EnvName }, none⟩] ctx5 op = .ok resp ∧
        t.Client.GetEnvironment
          [⟨.GetEnvironment ctx { Name := t.EnvName }, none⟩,
            ⟨.StartEnvironment ctx { Name := t.EnvName }, none⟩,
            ⟨.WaitStart ctx5 op, none⟩] ctx5 { Name := t.EnvName } = .ok env ∧
        r = [.map [
          ("status", .str "started"),
          ("environment", .map [
            ("name", .str env.Name),
            ("id", .str env.Id),
            ("state", .str env.State.String),
            ("ssh_host", .str env.SshHost),
            ("ssh_port", .int32 env.SshPort),
            ("ssh_username", .str env.SshUsername),
            ("web_host", .str env.WebHost)])]]) ∧
    ((cloudshellauthorize.Invoke t clock ctx mapParams).2 = .ok r →
      ∃ (req : AuthorizeEnvironmentRequest) (op : AuthorizeEnvironmentOperation)
        (resp : Option AuthorizeEnvironmentResponse) (ctx30 : Context),
        ctx30 = WithTimeout ctx (clock []) (30 * Second) ∧
        (cloudshellauthorize.Invoke t clock ctx mapParams).1 =
          [⟨.AuthorizeEnvironment ctx30 req, none⟩, ⟨.WaitAuthorize ctx30 op, none⟩] ∧
        (∀ ev ∈ (cloudshellauthorize.Invoke t clock ctx mapParams).1,
          ev.call.method ≠ .GetEnvironment) ∧
        t.Client.WaitAuthorize [⟨.AuthorizeEnvironment ctx30 req, none⟩] ctx30 op = .ok resp ∧
        r = [.map (
          ("status", .str "authorized") ::
            (match resp with
              | some payload => [("response", .authorizeResponse payload)]
              | none => []))]) := by
  refine ⟨fun hr => ?_, fun hr hm => ?_, fun hr => ?_⟩
  · obtain ⟨key, op, resp, env, -, hlog, hw, hg, hres⟩ := addkey_success t ctx mapParams r hr
    exact ⟨key, op, resp, env, hlog, hw, hg, hres⟩
  · exact start_success_after_mutation t clock ctx mapParams r hr hm
  · obtain ⟨req, op, resp, ctx30, hc, hlog, hw, hres⟩ :=
      authorize_success t clock ctx mapParams r hr
    refine ⟨req, op, resp, ctx30, hc, hlog, ?_, hw, hres⟩
    intro ev hev
    rw [hlog] at hev
    simp only [List.mem_cons, List.mem_singleton, List.not_mem_nil, or_false] at hev
    rcases hev with hev | hev <;> (subst hev; simp [Call.method])

theorem lro_mutate_wait_refetch_witness :
    (cloudshelladdkey.Invoke
        (demoTool cloudshelladdkey.kind
          (demoClient (demoEnv Environment_RUNNING) (demoEnv Environment_RUNNING)))
        ⟨some 90⟩ [("public_key", .str "ssh-ed25519 AAAA alice@host")]).2 =
      .ok [.map [
        ("status", .str "key_added"),
        ("environment", .map [
          ("name", .str "users/me/environments/default"),
          ("id", .str "default"),
          ("state", .str "RUNNING"),
          ("ssh_host", .str "ssh.example"),
          ("ssh_port", .int32 6000),
          ("ssh_username", .str "alice")]),
        ("public_keys_count", .int 1)]] ∧
    (cloudshelladdkey.Invoke
        (demoTool cloudshelladdkey.kind
          (demoClient (demoEnv Environment_RUNNING) (demoEnv Environment_RUNNING)))
        ⟨some 90⟩ [("public_key", .str "ssh-ed25519 AAAA alice@host")]).1.map
          (fun ev => ev.call.method) =
      [.AddPublicKey, .Wait, .GetEnvironment] := by
  refine ⟨rfl, ?_⟩
  obtain ⟨key, op, resp, env, hlog, -⟩ :=
    (lro_mutate_wait_refetch
      (demoTool cloudshelladdkey.kind
        (demoClient (demoEnv Environment_RUNNING) (demoEnv Environment_RUNNING)))
      (fun _ => 0) ⟨some 90⟩ [("public_key", .str "ssh-ed25519 AAAA alice@host")] _).1 rfl
  rw [hlog]
  rfl

/-- The deadline of `WithTimeout`: the earlier of the parent's deadline and
`now + timeout`; never later than the parent's, and strictly earlier exactly when the
parent has no deadline or a later one. -/
theorem WithTimeout_deadline (ctx : Context) (now timeout : Nat) :
    (WithTimeout ctx now timeout).deadline =
        some (match ctx.deadline with
          | some ambient => min ambient (now + timeout)
          | none => now + timeout) ∧
      deadlineLE (WithTimeout ctx now timeout).deadline ctx.deadline = true ∧
      deadlineLE (WithTimeout ctx now timeout).deadline (some (now + timeout)) = true ∧
      (deadlineLT (WithTimeout ctx now timeout).deadline ctx.deadline = true ↔
        deadlineLT (some (now + timeout)) ctx.deadline = true) := by
  obtain ⟨_ | cur⟩ := ctx
  · simp [WithTimeout, deadlineLE, deadlineLT]
  · by_cases h : cur < now + timeout
    · have hmin : min cur (now + timeout) = cur := min_eq_left (le_of_lt h)
      refine ⟨?_, ?_, ?_, ?_⟩
      · simp [WithTimeout, h, hmin]
      · simp [WithTimeout, h, deadlineLE]
      · simpa [WithTimeout, h, deadlineLE] using le_of_lt h
      · simp only [WithTimeout, h, if_true, deadlineLT, decide_eq_true_eq]
        constructor <;> intro h' <;> omega
    · have hmin : min cur (now + timeout) = now + timeout := min_eq_right (not_lt.mp h)
      refine ⟨?_, ?_, ?_, ?_⟩
      · simp [WithTimeout, h, hmin]
      · simpa [WithTimeout, h, deadlineLE] using not_lt.mp h
      · simp [WithTimeout, h, deadlineLE]
      · simp [WithTimeout, h, deadlineLT]

/-- Every call of the authorize tool is `AuthorizeEnvironment` or the wait, runs under the
30-second context, and the first call is always issued. -/
theorem authorize_calls {P : ToolsPkg} (t : Tool P) (clock : Clock) (ctx : Context)
    (mapParams : GoMap Value) :
    (∃ req failed rest, (cloudshellauthorize.Invoke t clock ctx mapParams).1 =
      ⟨.AuthorizeEnvironment (WithTimeout ctx (clock []) (30 * Second)) req, failed⟩ :: rest) ∧
    ∀ ev ∈ (cloudshellauthorize.Invoke t clock ctx mapParams).1,
      ev.call.ctx = WithTimeout ctx (clock []) (30 * Second) ∧
        (ev.call.method = .AuthorizeEnvironment ∨ ev.call.method = .Wait) := by
  generalize hreq :
    (if (assertString (GoMap.get mapParams cloudshellauthorize.accessTokenKey)).1 ≠ "" then
      ({ Name := t.EnvName,
         AccessToken := (assertString (GoMap.get mapParams cloudshellauthorize.accessTokenKey)).1 } :
        AuthorizeEnvironmentRequest)
     else { Name := t.EnvName }) = req
  rcases h1 : t.Client.AuthorizeEnvironment [] (WithTimeout ctx (clock []) (30 * Second)) req
    with err | op
  · simp [cloudshellauthorize.Invoke, hreq, h1, Call.ctx, Call.method]
  · rcases h2 : t.Client.WaitAuthorize
        [⟨.AuthorizeEnvironment (WithTimeout ctx (clock []) (30 * Second)) req, none⟩]
        (WithTimeout ctx (clock []) (30 * Second)) op with err | resp
    · simp [cloudshellauthorize.Invoke, hreq, h1, h2, Call.ctx, Call.method]
    · simp [cloudshellauthorize.Invoke, hreq, h1, h2, Call.ctx, Call.method]

/-- C7: every call the authorize tool issues (`AuthorizeEnvironment`, which is always
issued, and the wait) runs under one deadline, the minimum of the ambient deadline and
the clock reading at the start of the invocation plus 30 seconds (that sum when there is no
ambient deadline), and so at most 30 seconds after the start. -/
theorem authorize_deadline {P : ToolsPkg} (t : Tool P) (clock : Clock) (ctx : Context)
    (mapParams : GoMap Value) :
    (∃ req failed rest, (cloudshellauthorize.Invoke t clock ctx mapParams).1 =
      ⟨.AuthorizeEnvironment (WithTimeout ctx (clock []) (30 * Second)) req, failed⟩ :: rest) ∧
    ∀ ev ∈ (cloudshellauthorize.Invoke t clock ctx mapParams).1,
      (ev.call.method = .AuthorizeEnvironment ∨ ev.call.method = .Wait) ∧
      ev.call.ctx.deadline =
        some (match ctx.deadline with
          | some ambient => min ambient (clock [] + 30 * Second)
          | none => clock [] + 30 * Second) ∧
      ∃ d, ev.call.ctx.deadline = some d ∧ d ≤ clock [] + 30 * Second := by
  obtain ⟨hfirst, hall⟩ := authorize_calls t clock ctx mapParams
  refine ⟨hfirst, fun ev hev => ?_⟩
  obtain ⟨hctx, hmeth⟩ := hall ev hev
  obtain ⟨hd, -, hle, -⟩ := WithTimeout_deadline ctx (clock []) (30 * Second)
  rw [hctx]
  refine ⟨hmeth, hd, ?_⟩
  rw [hd] at hle ⊢
  exact ⟨_, rfl, by simpa [deadlineLE] using hle⟩

/-- The contexts of the start tool: the first two calls (the pre-check and
`StartEnvironment`) run under the context of the caller, every later call (the wait and
the re-fetch) under the 5-minute context created after `StartEnvironment` returned. -/
theorem start_calls {P : ToolsPkg} (t : Tool P) (clock : Clock) (ctx : Context)
    (params : GoMap Value) :
    (∀ ev ∈ (cloudshellstart.Invoke t clock ctx params).1.take 2, ev.call.ctx = ctx) ∧
    ∀ ev ∈ (cloudshellstart.Invoke t clock ctx params).1.drop 2,
      ev.call.ctx =
          WithTimeout ctx (clock [⟨.GetEnvironment ctx { Name := t.EnvName }, none⟩,
            ⟨.StartEnvironment ctx { Name := t.EnvName }, none⟩]) (5 * Minute) ∧
        (ev.call.method = .Wait ∨ ev.call.method = .GetEnvironment) := by
  rcases h1 : t.Client.GetEnvironment [] ctx { Name := t.EnvName } with err | env0
  · simp [cloudshellstart.Invoke, h1, Call.ctx]
  · by_cases hrun : env0.State = Environment_RUNNING
    · simp [cloudshellstart.Invoke, h1, hrun, Call.ctx]
    · rcases h2 : t.Client.StartEnvironment [⟨.GetEnvironment ctx { Name := t.EnvName }, none⟩]
          ctx { Name := t.EnvName } with err | op
      · simp [cloudshellstart.Invoke, h1, hrun, h2, Call.ctx]
      · rcases h3 : t.Client.WaitStart
            [⟨.GetEnvironment ctx { Name := t.EnvName }, none⟩,
              ⟨.StartEnvironment ctx { Name := t.EnvName }, none⟩]
            (WithTimeout ctx (clock [⟨.GetEnvironment ctx { Name := t.EnvName }, none⟩,
              ⟨.StartEnvironment ctx { Name := t.EnvName }, none⟩]) (5 * Minute)) op
          with err | resp
        · simp [cloudshellstart.Invoke, h1, hrun, h2, h3, Call.ctx, Call.method]
        · rcases h4 : t.Client.GetEnvironment
              [⟨.GetEnvironment ctx { Name := t.EnvName }, none⟩,
                ⟨.StartEnvironment ctx { Name := t.EnvName }, none⟩,
                ⟨.WaitStart (WithTimeout ctx
                  (clock [⟨.GetEnvironment ctx { Name := t.EnvName }, none⟩,
                    ⟨.StartEnvironment ctx { Name := t.EnvName }, none⟩]) (5 * Minute)) op,
                  none⟩]
              (WithTimeout ctx (clock [⟨.GetEnvironment ctx { Name := t.EnvName }, none⟩,
                ⟨.StartEnvironment ctx { Name := t.EnvName }, none⟩]) (5 * Minute))
              { Name := t.EnvName } with err | env
          · simp [cloudshellstart.Invoke, h1, hrun, h2, h3, h4, Call.ctx, Call.method]
          · simp [cloudshellstart.Invoke, h1, hrun, h2, h3, h4, Call.ctx, Call.method]

/-- C8, as stated, fails: under a caller deadline 10 seconds after the start, both calls of
a successful authorize invocation run under that very deadline, which is not strictly
earlier than the deadline of the caller. -/
theorem sub_deadline_counterexample :
    (cloudshellauthorize.Invoke
        (demoTool cloudshellauthorize.kind
          (demoClient (demoEnv Environment_RUNNING) (demoEnv Environment_RUNNING)))
        (fun _ => 0) ⟨some (10 * Second)⟩ []).1.map (fun ev => ev.call.ctx.deadline) =
      [some (10 * Second), some (10 * Second)] ∧
    deadlineLT (some (10 * Second)) (some (10 * Second)) = false :=
  ⟨by decide, by decide⟩

/-- C8 (amended): the deadline of every call of the authorize tool, and of every call of
the start tool after `StartEnvironment` (the wait and the re-fetch), is never later than the
deadline of the caller and never later than the sub-deadline (the clock reading when the
sub-context is created plus 30 seconds, respectively 5 minutes); it is strictly earlier
than the deadline of the caller exactly when the caller has no deadline or one later than
the sub-deadline.  The pre-check and `StartEnvironment` of the start tool run under the
context of the caller. -/
theorem sub_deadline_layered {P : ToolsPkg} (t : Tool P) (clock : Clock) (ctx : Context)
    (mapParams : GoMap Value) :
    (∀ ev ∈ (cloudshellauthorize.Invoke t clock ctx mapParams).1,
      deadlineLE ev.call.ctx.deadline ctx.deadline = true ∧
      deadlineLE ev.call.ctx.deadline (some (clock [] + 30 * Second)) = true ∧
      (deadlineLT ev.call.ctx.deadline ctx.deadline = true ↔
        deadlineLT (some (clock [] + 30 * Second)) ctx.deadline = true)) ∧
    (∀ ev ∈ (cloudshellstart.Invoke t clock ctx mapParams).1.drop 2,
      deadlineLE ev.call.ctx.deadline ctx.deadline = true ∧
      deadlineLE ev.call.ctx.deadline
        (some (clock [⟨.GetEnvironment ctx { Name := t.EnvName }, none⟩,
          ⟨.StartEnvironment ctx { Name := t.EnvName }, none⟩] + 5 * Minute)) = true ∧
      (deadlineLT ev.call.ctx.deadline ctx.deadline = true ↔
        deadlineLT
          (some (clock [⟨.GetEnvironment ctx { Name := t.EnvName }, none⟩,
            ⟨.StartEnvironment ctx { Name := t.EnvName }, none⟩] + 5 * Minute))
          ctx.deadline = true)) ∧
    (∀ ev ∈ (cloudshellstart.Invoke t clock ctx mapParams).1.take 2, ev.call.ctx = ctx) := by
  refine ⟨fun ev hev => ?_, fun ev hev => ?_, (start_calls t clock ctx mapParams).1⟩
  · rw [((authorize_calls t clock ctx mapParams).2 ev hev).1]
    exact (WithTimeout_deadline ctx (clock []) (30 * Second)).2
  · rw [((start_calls t clock ctx mapParams).2 ev hev).1]
    exact (WithTimeout_deadline ctx _ (5 * Minute)).2

theorem sub_deadline_layered_witness :
    (⟨.WaitAuthorize ⟨some (30 * Second)⟩ ⟨2⟩, none⟩ : Event) ∈
        (cloudshellauthorize.Invoke
          (demoTool cloudshellauthorize.kind
            (demoClient (demoEnv Environment_RUNNING) (demoEnv Environment_RUNNING)))
          (fun _ => 0) ⟨some (45 * Second)⟩ []).1 ∧
      deadlineLT (some (30 * Second)) (some (45 * Second)) = true :=
  ⟨by decide,
    (((sub_deadline_layered
      (demoTool cloudshellauthorize.kind
        (demoClient (demoEnv Environment_RUNNING) (demoEnv Environment_RUNNING)))
      (fun _ => 0) ⟨some (45 * Second)⟩ []).1
        ⟨.WaitAuthorize ⟨some (30 * Second)⟩ ⟨2⟩, none⟩ (by decide)).2.2).2 (by decide)⟩

/-- A map read finds nothing exactly when the key is not a key of the map. -/
theorem GoMap.get_eq_none_iff {α : Type} (m : GoMap α) (k : String) :
    GoMap.get m k = none ↔ k ∉ GoMap.keys m := by
  induction m with
  | nil => simp [GoMap.get, GoMap.keys]
  | cons kv rest ih =>
    obtain ⟨k', v⟩ := kv
    by_cases h : k' = k
    · simp [GoMap.get, GoMap.keys, h]
    · have h' : ¬ k = k' := fun e => h e.symm
      simpa [GoMap.get, GoMap.keys, h, h'] using ih

/-- C9: each of the four `Initialize` functions fails with the no-such-source error naming
`cfg.Source` when that name is not a key of the map, fails with the incompatible-source
error when the source under that name lacks one of the two accessors, and otherwise
succeeds whatever `SourceKind()` says, with a tool whose `EnvName` is what the source's
`GetEnvironmentName()` returns and whose `Name` and `AuthRequired` are those of the
config. -/
theorem Initialize_binding (P : ToolsPkg) (cfg : Config) (srcs : GoMap SourceValue) :
    ∀ p ∈ [(cloudshellstart.kind, cloudshellstart.Initialize P cfg srcs),
        (cloudshelladdkey.kind, cloudshelladdkey.Initialize P cfg srcs),
        (cloudshellauthorize.kind, cloudshellauthorize.Initialize P cfg srcs),
        (cloudshellgetenv.kind, cloudshellgetenv.Initialize P cfg srcs)],
      (cfg.Source ∉ GoMap.keys srcs →
        p.2 = .error (.errorf "no source named %q configured" [.str cfg.Source])) ∧
      (∀ rawS : SourceValue, GoMap.get srcs cfg.Source = some rawS →
        (rawS.CloudShellClient = none ∨ rawS.GetEnvironmentName = none) →
        p.2 = .error (.errorf "invalid source for %q tool: source kind must be one of %q"
          [.str p.1, .strs ["cloud-shell"]])) ∧
      (∀ (rawS : SourceValue) (client : CloudShellClient) (envName : String),
        GoMap.get srcs cfg.Source = some rawS → rawS.CloudShellClient = some client →
        rawS.GetEnvironmentName = some envName →
        ∃ tool : Tool P, p.2 = .ok tool ∧ tool.EnvName = envName ∧ tool.Name = cfg.Name ∧
          tool.AuthRequired = cfg.AuthRequired ∧ tool.Kind = p.1) ∧
      (∀ s : cloudshell.Source, GoMap.get srcs cfg.Source = some s.toSourceValue →
        ∃ tool : Tool P, p.2 = .ok tool ∧ tool.EnvName = s.GetEnvironmentName ∧
          tool.Name = cfg.Name ∧ tool.AuthRequired = cfg.AuthRequired) := by
  intro p hp
  simp only [List.mem_cons, List.mem_singleton, List.not_mem_nil, or_false] at hp
  rcases hp with rfl | rfl | rfl | rfl
  all_goals
    refine ⟨fun h => ?_, fun rawS hs hbad => ?_, fun rawS client envName hs hc hn => ?_,
      fun s hs => ?_⟩
    · have hnone := (GoMap.get_eq_none_iff srcs cfg.Source).mpr h
      simp [cloudshellstart.Initialize, cloudshelladdkey.Initialize,
        cloudshellauthorize.Initialize, cloudshellgetenv.Initialize, hnone]
    · have hassert : assertCompatibleSource rawS = none := by
        rcases hbad with hbad | hbad
        · simp [assertCompatibleSource, hbad]
        · cases hcl : rawS.CloudShellClient <;> simp [assertCompatibleSource, hbad, hcl]
      simp [cloudshellstart.Initialize, cloudshelladdkey.Initialize,
        cloudshellauthorize.Initialize, cloudshellgetenv.Initialize, hs, hassert,
        compatibleSources, cloudshell.SourceKind]
    · have hassert : assertCompatibleSource rawS =
          some { CloudShellClient := client, GetEnvironmentName := envName } := by
        simp [assertCompatibleSource, hc, hn]
      simp [cloudshellstart.Initialize, cloudshelladdkey.Initialize,
        cloudshellauthorize.Initialize, cloudshellgetenv.Initialize, hs, hassert]
    · have hassert : assertCompatibleSource s.toSourceValue =
          some { CloudShellClient := s.CloudShellClient,
                 GetEnvironmentName := s.GetEnvironmentName } := by
        simp [assertCompatibleSource, cloudshell.Source.toSourceValue]
      simp [cloudshellstart.Initialize, cloudshelladdkey.Initialize,
        cloudshellauthorize.Initialize, cloudshellgetenv.Initialize, hs, hassert]

theorem Initialize_binding_witness :
    GoMap.get [("my-shell", demoSourceValue)] demoConfig.Source = some demoSourceValue ∧
    demoSourceValue.SourceKind ≠ cloudshell.SourceKind ∧
    ∃ tool : Tool demoPkg,
      cloudshellstart.Initialize demoPkg demoConfig [("my-shell", demoSourceValue)] = .ok tool ∧
        tool.EnvName = "users/alice/environments/default" ∧ tool.Name = demoConfig.Name ∧
        tool.AuthRequired = demoConfig.AuthRequired ∧ tool.Kind = cloudshellstart.kind :=
  ⟨rfl, by decide,
    (Initialize_binding demoPkg demoConfig [("my-shell", demoSourceValue)]
      (cloudshellstart.kind,
        cloudshellstart.Initialize demoPkg demoConfig [("my-shell", demoSourceValue)])
      (List.mem_cons_self _ _)).2.2.1 demoSourceValue demoSource.CloudShellClient
      "users/alice/environments/default" rfl rfl (by decide)⟩

/-- C10: when `GetEnvironment` succeeds, the get-env tool returns a single map whose keys
are exactly name, id, state and docker_image, plus ssh_host, ssh_port and ssh_username
exactly when the SSH host of the environment is not empty, plus web_host exactly when its
web host is not empty; no key occurs twice and each value is the field of that name. -/
theorem getenv_result {P : ToolsPkg} (t : Tool P) (ctx : Context) (params : GoMap Value)
    (env : Environment)
    (hget : t.Client.GetEnvironment [] ctx { Name := t.EnvName } = .ok env) :
    ∃ m : GoMap Value,
      cloudshellgetenv.Invoke t ctx params =
        ([⟨.GetEnvironment ctx { Name := t.EnvName }, none⟩], .ok [.map m]) ∧
      (GoMap.keys m).Nodup ∧
      (∀ k : String, k ∈ GoMap.keys m ↔
        (k ∈ ["name", "id", "state", "docker_image"] ∨
          (env.SshHost ≠ "" ∧ k ∈ ["ssh_host", "ssh_port", "ssh_username"]) ∨
          (env.WebHost ≠ "" ∧ k = "web_host"))) ∧
      GoMap.get m "name" = some (.str env.Name) ∧
      GoMap.get m "id" = some (.str env.Id) ∧
      GoMap.get m "state" = some (.str env.State.String) ∧
      GoMap.get m "docker_image" = some (.str env.DockerImage) ∧
      (env.SshHost ≠ "" →
        GoMap.get m "ssh_host" = some (.str env.SshHost) ∧
        GoMap.get m "ssh_port" = some (.int32 env.SshPort) ∧
        GoMap.get m "ssh_username" = some (.str env.SshUsername)) ∧
      (env.WebHost ≠ "" → GoMap.get m "web_host" = some (.str env.WebHost)) := by
  by_cases hs : env.SshHost = "" <;> by_cases hw : env.WebHost = ""
  · refine ⟨[("name", .str env.Name), ("id", .str env.Id), ("state", .str env.State.String),
      ("docker_image", .str env.DockerImage)], ?_, by simp [GoMap.keys], ?_, ?_⟩
    · simp [cloudshellgetenv.Invoke, hget, hs, hw, GoMap.literal, GoMap.set]
    · intro k; simp [GoMap.keys, hs, hw]; try tauto
    · simp [GoMap.get, hs, hw]
  · refine ⟨[("name", .str env.Name), ("id", .str env.Id), ("state", .str env.State.String),
      ("docker_image", .str env.DockerImage), ("web_host", .str env.WebHost)],
      ?_, by simp [GoMap.keys], ?_, ?_⟩
    · simp [cloudshellgetenv.Invoke, hget, hs, hw, GoMap.literal, GoMap.set]
    · intro k; simp [GoMap.keys, hs, hw]; try tauto
    · simp [GoMap.get, hs, hw]
  · refine ⟨[("name", .str env.Name), ("id", .str env.Id), ("state", .str env.State.String),
      ("docker_image", .str env.DockerImage), ("ssh_host", .str env.SshHost),
      ("ssh_port", .int32 env.SshPort), ("ssh_username", .str env.SshUsername)],
      ?_, by simp [GoMap.keys], ?_, ?_⟩
    · simp [cloudshellgetenv.Invoke, hget, hs, hw, GoMap.literal, GoMap.set]
    · intro k; simp [GoMap.keys, hs, hw]; try tauto
    · simp [GoMap.get, hs, hw]
  · refine ⟨[("name", .str env.Name), ("id", .str env.Id), ("state", .str env.State.String),
      ("docker_image", .str env.DockerImage), ("ssh_host", .str env.SshHost),
      ("ssh_port", .int32 env.SshPort), ("ssh_username", .str env.SshUsername),
      ("web_host", .str env.WebHost)], ?_, by simp [GoMap.keys], ?_, ?_⟩
    · simp [cloudshellgetenv.Invoke, hget, hs, hw, GoMap.literal, GoMap.set]
    · intro k; simp [GoMap.keys, hs, hw]; tauto
    · simp [GoMap.get, hs, hw]

theorem getenv_result_witness :
    (demoClient (demoEnv Environment_RUNNING) (demoEnv Environment_PENDING)).GetEnvironment []
        ⟨none⟩ { Name := "users/me/environments/default" } = .ok (demoEnv Environment_RUNNING) ∧
    ∃ m : GoMap Value,
      cloudshellgetenv.Invoke
          (demoTool cloudshellgetenv.kind
            (demoClient (demoEnv Environment_RUNNING) (demoEnv Environment_PENDING)))
          ⟨none⟩ [] =
        ([⟨.GetEnvironment ⟨none⟩ { Name := "users/me/environments/default" }, none⟩],
          .ok [.map m]) ∧
      (∀ k : String, k ∈ GoMap.keys m ↔
        k ∈ ["name", "id", "state", "docker_image", "ssh_host", "ssh_port", "ssh_username",
          "web_host"]) ∧
      GoMap.get m "state" = some (.str "RUNNING") ∧
      GoMap.get m "ssh_port" = some (.int32 6000) := by
  refine ⟨rfl, ?_⟩
  obtain ⟨m, hinv, -, hkeys, -, -, hstate, -, hssh, -⟩ :=
    getenv_result
      (demoTool cloudshellgetenv.kind
        (demoClient (demoEnv Environment_RUNNING) (demoEnv Environment_PENDING)))
      ⟨none⟩ [] (demoEnv Environment_RUNNING) rfl
  refine ⟨m, hinv, fun k => ?_, hstate, (hssh (by decide)).2.1⟩
  rw [hkeys k]
  have h1 : (demoEnv Environment_RUNNING).SshHost ≠ "" := by decide
  have h2 : (demoEnv Environment_RUNNING).WebHost ≠ "" := by decide
  simp only [h1, h2, ne_eq, not_false_eq_true, true_and, List.mem_cons, List.mem_singleton,
    List.not_mem_nil, or_false]
  tauto

/-- C11: a successful add-key invocation returns a single map with status "key_added" and
an environment map whose keys are exactly name, id, state, ssh_host, ssh_port and
ssh_username, each the field of the environment fetched after the wait; the key
public_keys_count is present exactly when that environment lists at least one public
key, and is then the number of keys listed; the map has no other key. -/
theorem addkey_result {P : ToolsPkg} (t : Tool P) (ctx : Context) (mapParams : GoMap Value)
    (r : List Value) (hr : (cloudshelladdkey.Invoke t ctx mapParams).2 = .ok r) :
    ∃ (key : String) (op : AddPublicKeyOperation) (env : Environment)
      (m envMap : GoMap Value),
      (cloudshelladdkey.Invoke t ctx mapParams).1 =
        [⟨.AddPublicKey ctx { Environment := t.EnvName, Key := key }, none⟩,
          ⟨.WaitAddPublicKey ctx op, none⟩,
          ⟨.GetEnvironment ctx { Name := t.EnvName }, none⟩] ∧
      t.Client.GetEnvironment
        [⟨.AddPublicKey ctx { Environment := t.EnvName, Key := key }, none⟩,
          ⟨.WaitAddPublicKey ctx op, none⟩] ctx { Name := t.EnvName } = .ok env ∧
      r = [.map m] ∧
      GoMap.get m "status" = some (.str "key_added") ∧
      GoMap.get m "environment" = some (.map envMap) ∧
      GoMap.keys envMap = ["name", "id", "state", "ssh_host", "ssh_port", "ssh_username"] ∧
      GoMap.get envMap "name" = some (.str env.Name) ∧
      GoMap.get envMap "id" = some (.str env.Id) ∧
      GoMap.get envMap "state" = some (.str env.State.String) ∧
      GoMap.get envMap "ssh_host" = some (.str env.SshHost) ∧
      GoMap.get envMap "ssh_port" = some (.int32 env.SshPort) ∧
      GoMap.get envMap "ssh_username" = some (.str env.SshUsername) ∧
      (GoMap.keys m).Nodup ∧
      (∀ k : String, k ∈ GoMap.keys m ↔
        (k = "status" ∨ k = "environment" ∨
          (k = "public_keys_count" ∧ 1 ≤ env.PublicKeys.length))) ∧
      ("public_keys_count" ∈ GoMap.keys m ↔ 1 ≤ env.PublicKeys.length) ∧
      (1 ≤ env.PublicKeys.length →
        GoMap.get m "public_keys_count" = some (.int env.PublicKeys.length)) := by
  obtain ⟨key, op, resp, env, -, hlog, -, hget, hres⟩ := addkey_success t ctx mapParams r hr
  by_cases hk : env.PublicKeys.length > 0
  · have hk1 : 1 ≤ env.PublicKeys.length := hk
    refine ⟨key, op, env,
      [("status", .str "key_added"), ("environment", .map [("name", .str env.Name), ("id", .str env.Id), ("state", .str env.State.String),
        ("ssh_host", .str env.SshHost), ("ssh_port", .int32 env.SshPort),
        ("ssh_username", .str env.SshUsername)]),
        ("public_keys_count", .int env.PublicKeys.length)],
      [("name", .str env.Name), ("id", .str env.Id), ("state", .str env.State.String),
        ("ssh_host", .str env.SshHost), ("ssh_port", .int32 env.SshPort),
        ("ssh_username", .str env.SshUsername)], hlog, hget, ?_, ?_, ?_, ?_, ?_, ?_, ?_, ?_, ?_, ?_, ?_, ?_, ?_, ?_⟩
    · rw [hres, if_pos hk]; rfl
    all_goals first
      | (intro k; simp [GoMap.keys, hk1])
      | simp [GoMap.get, GoMap.keys, hk1]
  · have hk1 : ¬ 1 ≤ env.PublicKeys.length := hk
    refine ⟨key, op, env,
      [("status", .str "key_added"), ("environment", .map [("name", .str env.Name), ("id", .str env.Id), ("state", .str env.State.String),
        ("ssh_host", .str env.SshHost), ("ssh_port", .int32 env.SshPort),
        ("ssh_username", .str env.SshUsername)])],
      [("name", .str env.Name), ("id", .str env.Id), ("state", .str env.State.String),
        ("ssh_host", .str env.SshHost), ("ssh_port", .int32 env.SshPort),
        ("ssh_username", .str env.SshUsername)], hlog, hget, ?_, ?_, ?_, ?_, ?_, ?_, ?_, ?_, ?_, ?_, ?_, ?_, ?_, ?_⟩
    · rw [hres, if_neg hk]; rfl
    all_goals first
      | (intro k; simp [GoMap.keys, hk1])
      | simp [GoMap.get, GoMap.keys, hk1]

theorem addkey_result_witness :
    (cloudshelladdkey.Invoke
        (demoTool cloudshelladdkey.kind
          (demoClient (demoEnv Environment_PENDING) (demoEnv Environment_RUNNING)))
        ⟨none⟩ [("public_key", .str "ssh-ed25519 AAAA alice@host")]).2 =
      .ok [.map [
        ("status", .str "key_added"),
        ("environment", .map [
          ("name", .str "users/me/environments/default"),
          ("id", .str "default"),
          ("state", .str "RUNNING"),
          ("ssh_host", .str "ssh.example"),
          ("ssh_port", .int32 6000),
          ("ssh_username", .str "alice")]),
        ("public_keys_count", .int 1)]] ∧
    ∃ (env : Environment) (m : GoMap Value),
      [Value.map [
        ("status", .str "key_added"),
        ("environment", .map [
          ("name", .str "users/me/environments/default"),
          ("id", .str "default"),
          ("state", .str "RUNNING"),
          ("ssh_host", .str "ssh.example"),
          ("ssh_port", .int32 6000),
          ("ssh_username", .str "alice")]),
        ("public_keys_count", .int 1)]] = [.map m] ∧
      GoMap.get m "status" = some (.str "key_added") ∧
      ("public_keys_count" ∈ GoMap.keys m ↔ 1 ≤ env.PublicKeys.length) := by
  refine ⟨rfl, ?_⟩
  obtain ⟨-, -, env, m, -, -, -, hm, hstatus, -, -, -, -, -, -, -, -, -, -, hcount, -⟩ :=
    addkey_result
      (demoTool cloudshelladdkey.kind
        (demoClient (demoEnv Environment_PENDING) (demoEnv Environment_RUNNING)))
      ⟨none⟩ [("public_key", .str "ssh-ed25519 AAAA alice@host")] _ rfl
  exact ⟨env, m, hm, hstatus, hcount⟩

/-- C12: the authorize tool always issues `AuthorizeEnvironment` for `t.EnvName`; the access
token of that request is the value under "access_token" when that is a non-empty string
and is empty when the value is the empty string, absent or not a string.  No parameter
error exists: every error returned wraps the error of a failed remote call.  On success
the result is a single map with status "authorized" whose only other possible key is
response, present exactly when the wait returned a non-nil response, which is then its
value. -/
theorem authorize_token_and_result {P : ToolsPkg} (t : Tool P) (clock : Clock)
    (ctx : Context) (mapParams : GoMap Value) :
    ∃ (req : AuthorizeEnvironmentRequest) (failed : Option GoError) (rest : List Event),
      (cloudshellauthorize.Invoke t clock ctx mapParams).1 =
        ⟨.AuthorizeEnvironment (WithTimeout ctx (clock []) (30 * Second)) req, failed⟩ :: rest ∧
      req.Name = t.EnvName ∧ req.IdToken = "" ∧ req.ExpireTime = none ∧
      (∀ s : String, GoMap.get mapParams "access_token" = some (.str s) → s ≠ "" →
        req.AccessToken = s) ∧
      ((GoMap.get mapParams "access_token" = none ∨
          (∃ v, GoMap.get mapParams "access_token" = some v ∧ ∀ s, v ≠ .str s) ∨
          GoMap.get mapParams "access_token" = some (.str "")) →
        req.AccessToken = "") ∧
      (∀ err : GoError, (cloudshellauthorize.Invoke t clock ctx mapParams).2 = .error err →
        ∃ (text : String) (cause : GoError), err = .wrapf text cause ∧
          ∃ ev ∈ (cloudshellauthorize.Invoke t clock ctx mapParams).1,
            ev.failed = some cause) ∧
      (∀ r : List Value, (cloudshellauthorize.Invoke t clock ctx mapParams).2 = .ok r →
        ∃ (op : AuthorizeEnvironmentOperation) (resp : Option AuthorizeEnvironmentResponse)
          (m : GoMap Value),
          t.Client.WaitAuthorize
            [⟨.AuthorizeEnvironment (WithTimeout ctx (clock []) (30 * Second)) req, none⟩]
            (WithTimeout ctx (clock []) (30 * Second)) op = .ok resp ∧
          r = [.map m] ∧
          GoMap.get m "status" = some (.str "authorized") ∧
          ("response" ∈ GoMap.keys m ↔ resp ≠ none) ∧
          (∀ payload, resp = some payload →
            GoMap.get m "response" = some (.authorizeResponse payload)) ∧
          (GoMap.keys m).Nodup ∧
          ∀ k ∈ GoMap.keys m, k = "status" ∨ k = "response") := by
  have hprops : ∀ req : AuthorizeEnvironmentRequest,
      (if (assertString (GoMap.get mapParams cloudshellauthorize.accessTokenKey)).1 ≠ "" then
        ({ Name := t.EnvName,
           AccessToken :=
            (assertString (GoMap.get mapParams cloudshellauthorize.accessTokenKey)).1 } :
          AuthorizeEnvironmentRequest)
       else { Name := t.EnvName }) = req →
      req.Name = t.EnvName ∧ req.IdToken = "" ∧ req.ExpireTime = none ∧
      (∀ s : String, GoMap.get mapParams "access_token" = some (.str s) → s ≠ "" →
        req.AccessToken = s) ∧
      ((GoMap.get mapParams "access_token" = none ∨
          (∃ v, GoMap.get mapParams "access_token" = some v ∧ ∀ s, v ≠ .str s) ∨
          GoMap.get mapParams "access_token" = some (.str "")) →
        req.AccessToken = "") := by
    intro req hreq
    have unfolded : cloudshellauthorize.accessTokenKey = "access_token" := rfl
    rw [unfolded] at hreq
    subst hreq
    refine ⟨?_, ?_, ?_, ?_, ?_⟩
    · split <;> rfl
    · split <;> rfl
    · split <;> rfl
    · intro s hs hne
      simp [hs, assertString, hne]
    · rintro (h | ⟨v, h, hv⟩ | h)
      · simp [h, assertString]
      · cases v <;> simp [h, assertString]
        exact absurd rfl (hv _)
      · simp [h, assertString]
  generalize hreq :
    (if (assertString (GoMap.get mapParams cloudshellauthorize.accessTokenKey)).1 ≠ "" then
      ({ Name := t.EnvName,
         AccessToken := (assertString (GoMap.get mapParams cloudshellauthorize.accessTokenKey)).1 } :
        AuthorizeEnvironmentRequest)
     else { Name := t.EnvName }) = req at hprops
  obtain ⟨p1, p2, p3, p4, p5⟩ := hprops req rfl
  rcases h1 : t.Client.AuthorizeEnvironment [] (WithTimeout ctx (clock []) (30 * Second)) req
    with err | op
  · refine ⟨req, some err, [], ?_, p1, p2, p3, p4, p5, ?_, ?_⟩
    · simp [cloudshellauthorize.Invoke, hreq, h1]
    · intro e he
      simp [cloudshellauthorize.Invoke, hreq, h1] at he
      refine ⟨_, _, he.symm,
        ⟨.AuthorizeEnvironment (WithTimeout ctx (clock []) (30 * Second)) req, some err⟩,
        ?_, rfl⟩
      simp [cloudshellauthorize.Invoke, hreq, h1]
    · intro r hr
      simp [cloudshellauthorize.Invoke, hreq, h1] at hr
  · rcases h2 : t.Client.WaitAuthorize
        [⟨.AuthorizeEnvironment (WithTimeout ctx (clock []) (30 * Second)) req, none⟩]
        (WithTimeout ctx (clock []) (30 * Second)) op with err | resp
    · refine ⟨req, none, [⟨.WaitAuthorize (WithTimeout ctx (clock []) (30 * Second)) op,
        some err⟩], ?_, p1, p2, p3, p4, p5, ?_, ?_⟩
      · simp [cloudshellauthorize.Invoke, hreq, h1, h2]
      · intro e he
        simp [cloudshellauthorize.Invoke, hreq, h1, h2] at he
        refine ⟨_, _, he.symm,
          ⟨.WaitAuthorize (WithTimeout ctx (clock []) (30 * Second)) op, some err⟩, ?_, rfl⟩
        simp [cloudshellauthorize.Invoke, hreq, h1, h2]
      · intro r hr
        simp [cloudshellauthorize.Invoke, hreq, h1, h2] at hr
    · refine ⟨req, none, [⟨.WaitAuthorize (WithTimeout ctx (clock []) (30 * Second)) op,
        none⟩], ?_, p1, p2, p3, p4, p5, ?_, ?_⟩
      · simp [cloudshellauthorize.Invoke, hreq, h1, h2]
      · intro e he
        simp [cloudshellauthorize.Invoke, hreq, h1, h2] at he
      · intro r hr
        simp only [cloudshellauthorize.Invoke, hreq, h1, h2] at hr
        cases resp with
        | none =>
          refine ⟨op, none, [("status", .str "authorized")], h2, ?_, ?_⟩
          · simp [GoMap.literal, GoMap.set] at hr
            exact hr.symm
          · simp [GoMap.get, GoMap.keys]
        | some payload =>
          refine ⟨op, some payload,
            [("status", .str "authorized"), ("response", .authorizeResponse payload)],
            h2, ?_, ?_⟩
          · simp [GoMap.literal, GoMap.set] at hr
            exact hr.symm
          · simp [GoMap.get, GoMap.keys]

/-- The keys after an assignment: the assigned key and the keys there before. -/
theorem GoMap.mem_keys_set {α : Type} (m : GoMap α) (k k' : String) (v : α) :
    k ∈ GoMap.keys (GoMap.set m k' v) ↔ k = k' ∨ k ∈ GoMap.keys m := by
  induction m with
  | nil => simp [GoMap.set, GoMap.keys]
  | cons kv rest ih =>
    obtain ⟨k0, v0⟩ := kv
    by_cases h : k0 = k'
    · subst h
      simp [GoMap.set, GoMap.keys]
    · have ih' : k ∈ List.map Prod.fst (GoMap.set rest k' v) ↔
          k = k' ∨ k ∈ List.map Prod.fst rest := ih
      simp only [GoMap.set, h, if_false, GoMap.keys, List.map_cons, List.mem_cons, ih']
      tauto

/-- An assignment to an absent key keeps the keys free of repetition. -/
theorem GoMap.nodup_keys_set {α : Type} (m : GoMap α) (k : String) (v : α)
    (h : (GoMap.keys m).Nodup) : (GoMap.keys (GoMap.set m k v)).Nodup := by
  induction m with
  | nil => simp [GoMap.set, GoMap.keys]
  | cons kv rest ih =>
    obtain ⟨k0, v0⟩ := kv
    have h' : k0 ∉ GoMap.keys rest ∧ (GoMap.keys rest).Nodup := by
      simpa [GoMap.keys] using h
    by_cases hk : k0 = k
    · subst hk
      simpa [GoMap.set, GoMap.keys] using h
    · have hmem : k0 ∉ GoMap.keys (GoMap.set rest k v) := by
        rw [GoMap.mem_keys_set]
        exact fun hc => hc.elim hk h'.1
      have hnd := ih h'.2
      simp only [GoMap.set, hk, if_false]
      exact List.nodup_cons.mpr ⟨hmem, hnd⟩

/-- A read after an assignment: the assigned value under the assigned key, the old
binding under every other key. -/
theorem GoMap.get_set {α : Type} (m : GoMap α) (k k' : String) (v : α) :
    GoMap.get (GoMap.set m k' v) k = if k' = k then some v else GoMap.get m k := by
  induction m with
  | nil => simp [GoMap.set, GoMap.get]
  | cons kv rest ih =>
    obtain ⟨k0, v0⟩ := kv
    by_cases h : k0 = k'
    · subst h
      by_cases h2 : k0 = k <;> simp [GoMap.set, GoMap.get, h2]
    · by_cases h2 : k0 = k
      · subst h2
        have h3 : ¬ k' = k0 := fun e => h e.symm
        simp [GoMap.set, GoMap.get, h, h3]
      · simp [GoMap.set, GoMap.get, h, h2, ih]

/-- The registration function: false and no change on a present kind; true, the factory
recorded, every other binding kept and no kind repeated on an absent one. -/
theorem registerIn_spec {F : Type} (registry : GoMap F) (kind : String) (factory : F) :
    (kind ∈ GoMap.keys registry → registerIn registry kind factory = (false, registry)) ∧
    (kind ∉ GoMap.keys registry →
      (registerIn registry kind factory).1 = true ∧
      (registerIn registry kind factory).2 = GoMap.set registry kind factory ∧
      GoMap.get (registerIn registry kind factory).2 kind = some factory ∧
      (∀ k, k ≠ kind →
        GoMap.get (registerIn registry kind factory).2 k = GoMap.get registry k)) ∧
    ((GoMap.keys registry).Nodup → (GoMap.keys (registerIn registry kind factory).2).Nodup) ∧
    ((registerIn registry kind factory).1 = false ↔ kind ∈ GoMap.keys registry) := by
  by_cases h : kind ∈ GoMap.keys registry
  · have hsome : ∃ f, GoMap.get registry kind = some f := by
      rcases hg : GoMap.get registry kind with _ | f
      · exact absurd h ((GoMap.get_eq_none_iff registry kind).mp hg)
      · exact ⟨f, rfl⟩
    obtain ⟨f, hf⟩ := hsome
    simp [registerIn, hf, h]
  · have hnone := (GoMap.get_eq_none_iff registry kind).mpr h
    refine ⟨fun h' => absurd h' h, fun _ => ?_, fun hnd => ?_, ?_⟩
    · refine ⟨by simp [registerIn, hnone], by simp [registerIn, hnone], ?_, ?_⟩
      · simp [registerIn, hnone, GoMap.get_set]
      · intro k hk
        have hk' : ¬ kind = k := fun e => hk e.symm
        simp [registerIn, hnone, GoMap.get_set, hk']
    · simpa [registerIn, hnone] using GoMap.nodup_keys_set registry kind factory hnd
    · simp [registerIn, hnone, h]

/-- One initialiser: it panics when its kind is registered already; otherwise it returns,
and afterwards exactly its own kind has been added to what was registered. -/
theorem Initialiser.run_spec (i : Initialiser) (g : Registries) :
    (i.registered g = true → ∃ p, i.run g = .error p) ∧
    (i.registered g = false →
      ∃ g', i.run g = .ok g' ∧
        ∀ j : Initialiser, j.registered g' = (decide (j = i) || j.registered g)) := by
  cases i
  · refine ⟨fun h => ?_, fun h => ?_⟩
    · simp only [Initialiser.registered, decide_eq_true_eq] at h
      refine ⟨⟨"source kind %q already registered", [.str cloudshell.SourceKind]⟩, ?_⟩
      simp [Initialiser.run, cloudshell.init, sources.Register,
        (registerIn_spec g.sourceRegistry cloudshell.SourceKind cloudshell.newConfig).1 h]
    · simp only [Initialiser.registered, decide_eq_false_iff_not] at h
      have hs :=
        (registerIn_spec g.sourceRegistry cloudshell.SourceKind cloudshell.newConfig).2.1 h
      refine ⟨Registries.mk
        (GoMap.set g.sourceRegistry cloudshell.SourceKind cloudshell.newConfig)
        g.toolRegistry, ?_, ?_⟩
      · simp [Initialiser.run, cloudshell.init, sources.Register, hs.1, hs.2.1]
      · intro j
        cases j <;> simp [Initialiser.registered, GoMap.mem_keys_set]
  · refine ⟨fun h => ?_, fun h => ?_⟩
    · simp only [Initialiser.registered, decide_eq_true_eq] at h
      refine ⟨⟨"tool kind %q already registered", [.str cloudshelladdkey.kind]⟩, ?_⟩
      simp [Initialiser.run, cloudshelladdkey.init, tools.Register,
        (registerIn_spec g.toolRegistry cloudshelladdkey.kind cloudshelladdkey.newConfig).1 h]
    · simp only [Initialiser.registered, decide_eq_false_iff_not] at h
      have hs := (registerIn_spec g.toolRegistry cloudshelladdkey.kind cloudshelladdkey.newConfig).2.1 h
      refine ⟨Registries.mk g.sourceRegistry
        (GoMap.set g.toolRegistry cloudshelladdkey.kind cloudshelladdkey.newConfig), ?_, ?_⟩
      · simp [Initialiser.run, cloudshelladdkey.init, tools.Register, hs.1, hs.2.1]
      · intro j
        cases j <;>
          simp [Initialiser.registered, GoMap.mem_keys_set, cloudshellstart.kind,
            cloudshelladdkey.kind, cloudshellauthorize.kind, cloudshellgetenv.kind]
  · refine ⟨fun h => ?_, fun h => ?_⟩
    · simp only [Initialiser.registered, decide_eq_true_eq] at h
      refine ⟨⟨"tool kind %q already registered", [.str cloudshellauthorize.kind]⟩, ?_⟩
      simp [Initialiser.run, cloudshellauthorize.init, tools.Register,
        (registerIn_spec g.toolRegistry cloudshellauthorize.kind cloudshellauthorize.newConfig).1 h]
    · simp only [Initialiser.registered, decide_eq_false_iff_not] at h
      have hs := (registerIn_spec g.toolRegistry cloudshellauthorize.kind cloudshellauthorize.newConfig).2.1 h
      refine ⟨Registries.mk g.sourceRegistry
        (GoMap.set g.toolRegistry cloudshellauthorize.kind cloudshellauthorize.newConfig), ?_, ?_⟩
      · simp [Initialiser.run, cloudshellauthorize.init, tools.Register, hs.1, hs.2.1]
      · intro j
        cases j <;>
          simp [Initialiser.registered, GoMap.mem_keys_set, cloudshellstart.kind,
            cloudshelladdkey.kind, cloudshellauthorize.kind, cloudshellgetenv.kind]
  · refine ⟨fun h => ?_, fun h => ?_⟩
    · simp only [Initialiser.registered, decide_eq_true_eq] at h
      refine ⟨⟨"tool kind %q already registered", [.str cloudshellgetenv.kind]⟩, ?_⟩
      simp [Initialiser.run, cloudshellgetenv.init, tools.Register,
        (registerIn_spec g.toolRegistry cloudshellgetenv.kind cloudshellgetenv.newConfig).1 h]
    · simp only [Initialiser.registered, decide_eq_false_iff_not] at h
      have hs := (registerIn_spec g.toolRegistry cloudshellgetenv.kind cloudshellgetenv.newConfig).2.1 h
      refine ⟨Registries.mk g.sourceRegistry
        (GoMap.set g.toolRegistry cloudshellgetenv.kind cloudshellgetenv.newConfig), ?_, ?_⟩
      · simp [Initialiser.run, cloudshellgetenv.init, tools.Register, hs.1, hs.2.1]
      · intro j
        cases j <;>
          simp [Initialiser.registered, GoMap.mem_keys_set, cloudshellstart.kind,
            cloudshelladdkey.kind, cloudshellauthorize.kind, cloudshellgetenv.kind]
  · refine ⟨fun h => ?_, fun h => ?_⟩
    · simp only [Initialiser.registered, decide_eq_true_eq] at h
      refine ⟨⟨"tool kind %q already registered", [.str cloudshellstart.kind]⟩, ?_⟩
      simp [Initialiser.run, cloudshellstart.init, tools.Register,
        (registerIn_spec g.toolRegistry cloudshellstart.kind cloudshellstart.newConfig).1 h]
    · simp only [Initialiser.registered, decide_eq_false_iff_not] at h
      have hs := (registerIn_spec g.toolRegistry cloudshellstart.kind cloudshellstart.newConfig).2.1 h
      refine ⟨Registries.mk g.sourceRegistry
        (GoMap.set g.toolRegistry cloudshellstart.kind cloudshellstart.newConfig), ?_, ?_⟩
      · simp [Initialiser.run, cloudshellstart.init, tools.Register, hs.1, hs.2.1]
      · intro j
        cases j <;>
          simp [Initialiser.registered, GoMap.mem_keys_set, cloudshellstart.kind,
            cloudshelladdkey.kind, cloudshellauthorize.kind, cloudshellgetenv.kind]

/-- A run of initialisers returns exactly when no initialiser occurs twice in it and none
of their kinds was registered before. -/
theorem runInits_ok_iff (l : List Initialiser) (g : Registries) :
    (∃ g', runInits l g = .ok g') ↔ (l.Nodup ∧ ∀ i ∈ l, i.registered g = false) := by
  induction l generalizing g with
  | nil => simp [runInits]
  | cons i rest ih =>
    cases hreg : i.registered g with
    | true =>
      obtain ⟨p, hp⟩ := (Initialiser.run_spec i g).1 hreg
      simp [runInits, hp, hreg]
    | false =>
      obtain ⟨g1, hrun, hafter⟩ := (Initialiser.run_spec i g).2 hreg
      have hstep : runInits (i :: rest) g = runInits rest g1 := by simp [runInits, hrun]
      rw [hstep, ih g1]
      simp only [List.nodup_cons, List.mem_cons, forall_eq_or_imp, hreg, true_and]
      constructor
      · rintro ⟨hnd, hall⟩
        refine ⟨⟨fun hmem => ?_, hnd⟩, fun j hj => ?_⟩
        · have := hall i hmem
          simp [hafter] at this
        · have := hall j hj
          rw [hafter] at this
          simp only [Bool.or_eq_false_iff] at this
          exact this.2
      · rintro ⟨⟨hnot, hnd⟩, hall⟩
        refine ⟨hnd, fun j hj => ?_⟩
        rw [hafter]
        have hji : j ≠ i := fun e => hnot (e ▸ hj)
        simp [hji, hall j hj]

/-- A panic of an initialiser is the answer false of its registration. -/
theorem init_panics_iff (g : Registries) :
    ((∃ p, cloudshell.init g = .error p) ↔
      (sources.Register g.sourceRegistry cloudshell.SourceKind cloudshell.newConfig).1 =
        false) ∧
    ((∃ p, cloudshelladdkey.init g = .error p) ↔
      (tools.Register g.toolRegistry cloudshelladdkey.kind cloudshelladdkey.newConfig).1 =
        false) ∧
    ((∃ p, cloudshellauthorize.init g = .error p) ↔
      (tools.Register g.toolRegistry cloudshellauthorize.kind
        cloudshellauthorize.newConfig).1 = false) ∧
    ((∃ p, cloudshellgetenv.init g = .error p) ↔
      (tools.Register g.toolRegistry cloudshellgetenv.kind cloudshellgetenv.newConfig).1 =
        false) ∧
    ((∃ p, cloudshellstart.init g = .error p) ↔
      (tools.Register g.toolRegistry cloudshellstart.kind cloudshellstart.newConfig).1 =
        false) := by
  refine ⟨?_, ?_, ?_, ?_, ?_⟩
  · cases h : (sources.Register g.sourceRegistry cloudshell.SourceKind
      cloudshell.newConfig).1 <;> simp [cloudshell.init, h]
  · cases h : (tools.Register g.toolRegistry cloudshelladdkey.kind
      cloudshelladdkey.newConfig).1 <;> simp [cloudshelladdkey.init, h]
  · cases h : (tools.Register g.toolRegistry cloudshellauthorize.kind
      cloudshellauthorize.newConfig).1 <;> simp [cloudshellauthorize.init, h]
  · cases h : (tools.Register g.toolRegistry cloudshellgetenv.kind
      cloudshellgetenv.newConfig).1 <;> simp [cloudshellgetenv.init, h]
  · cases h : (tools.Register g.toolRegistry cloudshellstart.kind
      cloudshellstart.newConfig).1 <;> simp [cloudshellstart.init, h]

/-- C13: a registration answers false exactly on a kind that is present, then leaves the
registry as it is, and never makes a kind occur twice.  Each of the five initialisers panics
exactly when its registration answers false.  The four tool kinds are pairwise distinct,
so from registries that hold none of the five kinds a run of initialisers returns exactly
when no initialiser occurs twice in it: every order of all five returns, and an
initialiser run a second time panics. -/
theorem initialisers_register_once (g : Registries) (l : List Initialiser)
    (i : Initialiser) :
    (∀ (registry : GoMap tools.ToolConfigFactory) (kind : String)
        (f : tools.ToolConfigFactory),
      ((tools.Register registry kind f).1 = false ↔ kind ∈ GoMap.keys registry) ∧
      (kind ∈ GoMap.keys registry → tools.Register registry kind f = (false, registry)) ∧
      ((GoMap.keys registry).Nodup →
        (GoMap.keys (tools.Register registry kind f).2).Nodup)) ∧
    (∀ (registry : GoMap sources.SourceConfigFactory) (kind : String)
        (f : sources.SourceConfigFactory),
      ((sources.Register registry kind f).1 = false ↔ kind ∈ GoMap.keys registry) ∧
      (kind ∈ GoMap.keys registry → sources.Register registry kind f = (false, registry)) ∧
      ((GoMap.keys registry).Nodup →
        (GoMap.keys (sources.Register registry kind f).2).Nodup)) ∧
    (((∃ p, cloudshell.init g = .error p) ↔
        (sources.Register g.sourceRegistry cloudshell.SourceKind cloudshell.newConfig).1 =
          false) ∧
      ((∃ p, cloudshelladdkey.init g = .error p) ↔
        (tools.Register g.toolRegistry cloudshelladdkey.kind cloudshelladdkey.newConfig).1 =
          false) ∧
      ((∃ p, cloudshellauthorize.init g = .error p) ↔
        (tools.Register g.toolRegistry cloudshellauthorize.kind
          cloudshellauthorize.newConfig).1 = false) ∧
      ((∃ p, cloudshellgetenv.init g = .error p) ↔
        (tools.Register g.toolRegistry cloudshellgetenv.kind cloudshellgetenv.newConfig).1 =
          false) ∧
      ((∃ p, cloudshellstart.init g = .error p) ↔
        (tools.Register g.toolRegistry cloudshellstart.kind cloudshellstart.newConfig).1 =
          false)) ∧
    [cloudshelladdkey.kind, cloudshellauthorize.kind, cloudshellgetenv.kind,
        cloudshellstart.kind] =
      ["cloudshell-add-key", "cloudshell-authorize", "cloudshell-get-env",
        "cloudshell-start"] ∧
    [cloudshelladdkey.kind, cloudshellauthorize.kind, cloudshellgetenv.kind,
      cloudshellstart.kind].Nodup ∧
    ((∀ j : Initialiser, j.registered g = false) →
      ((∃ g', runInits l g = .ok g') ↔ l.Nodup) ∧
      (l.Perm [.source, .addkey, .authorize, .getenv, .start] →
        ∃ g', runInits l g = .ok g')) ∧
    (∀ g1, i.run g = .ok g1 → ∃ p, i.run g1 = .error p) ∧
    (∀ g1, runInits [i, i] g ≠ .ok g1) := by
  refine ⟨fun registry kind f => ?_, fun registry kind f => ?_, init_panics_iff g, rfl,
    by decide, fun hfree => ?_, fun g1 hrun => ?_, fun g1 hrun => ?_⟩
  · obtain ⟨h1, -, h3, h4⟩ := registerIn_spec registry kind f
    exact ⟨h4, h1, h3⟩
  · obtain ⟨h1, -, h3, h4⟩ := registerIn_spec registry kind f
    exact ⟨h4, h1, h3⟩
  · have hiff : (∃ g', runInits l g = .ok g') ↔ l.Nodup := by
      rw [runInits_ok_iff]
      exact ⟨fun h => h.1, fun h => ⟨h, fun j _ => hfree j⟩⟩
    refine ⟨hiff, fun hperm => hiff.mpr ?_⟩
    exact hperm.nodup_iff.mpr (by decide)
  · cases hreg : i.registered g with
    | true =>
      obtain ⟨p, hp⟩ := (Initialiser.run_spec i g).1 hreg
      rw [hp] at hrun
      cases hrun
    | false =>
      obtain ⟨g2, hrun2, hafter⟩ := (Initialiser.run_spec i g).2 hreg
      rw [hrun2] at hrun
      have e : g2 = g1 := Except.ok.inj hrun
      rw [← e]
      exact (Initialiser.run_spec i g2).1 (by simp [hafter])
  · have h := (runInits_ok_iff [i, i] g).mp ⟨g1, hrun⟩
    simp at h

theorem initialisers_register_once_witness :
    (∀ j : Initialiser, j.registered emptyRegistries = false) ∧
    (∃ g', runInits [.start, .getenv, .source, .authorize, .addkey] emptyRegistries =
      .ok g') ∧
    (∀ g1, runInits [.start, .start] emptyRegistries ≠ .ok g1) :=
  ⟨fun j => by cases j <;> rfl,
    ((initialisers_register_once emptyRegistries
      [.start, .getenv, .source, .authorize, .addkey] .start).2.2.2.2.2.1
        (fun j => by cases j <;> rfl)).1.mpr (by decide),
    (initialisers_register_once emptyRegistries [] .start).2.2.2.2.2.2.2⟩

/-- The requests of the get-env tool name `t.EnvName`; it issues no other call. -/
theorem getenv_names {P : ToolsPkg} (t : Tool P) (ctx : Context) (params : GoMap Value) :
    ∀ ev ∈ (cloudshellgetenv.Invoke t ctx params).1,
      ev.call.envName = some t.EnvName ∧ ev.call.method = .GetEnvironment := by
  rcases h1 : t.Client.GetEnvironment [] ctx { Name := t.EnvName } with err | env
  · simp [cloudshellgetenv.Invoke, h1, Call.envName, Call.method]
  · simp [cloudshellgetenv.Invoke, h1, Call.envName, Call.method]

/-- The requests of the start tool name `t.EnvName`; its only other call is the wait. -/
theorem start_names {P : ToolsPkg} (t : Tool P) (clock : Clock) (ctx : Context)
    (params : GoMap Value) :
    ∀ ev ∈ (cloudshellstart.Invoke t clock ctx params).1,
      ev.call.envName = some t.EnvName ∨
        (ev.call.envName = none ∧ ev.call.method = .Wait) := by
  rcases h1 : t.Client.GetEnvironment [] ctx { Name := t.EnvName } with err | env0
  · simp [cloudshellstart.Invoke, h1, Call.envName]
  · by_cases hrun : env0.State = Environment_RUNNING
    · simp [cloudshellstart.Invoke, h1, hrun, Call.envName]
    · rcases h2 : t.Client.StartEnvironment [⟨.GetEnvironment ctx { Name := t.EnvName }, none⟩]
          ctx { Name := t.EnvName } with err | op
      · simp [cloudshellstart.Invoke, h1, hrun, h2, Call.envName]
      · rcases h3 : t.Client.WaitStart
            [⟨.GetEnvironment ctx { Name := t.EnvName }, none⟩,
              ⟨.StartEnvironment ctx { Name := t.EnvName }, none⟩]
            (WithTimeout ctx (clock [⟨.GetEnvironment ctx { Name := t.EnvName }, none⟩,
              ⟨.StartEnvironment ctx { Name := t.EnvName }, none⟩]) (5 * Minute)) op
          with err | resp
        · simp [cloudshellstart.Invoke, h1, hrun, h2, h3, Call.envName, Call.method]
        · rcases h4 : t.Client.GetEnvironment
              [⟨.GetEnvironment ctx { Name := t.EnvName }, none⟩,
                ⟨.StartEnvironment ctx { Name := t.EnvName }, none⟩,
                ⟨.WaitStart (WithTimeout ctx
                  (clock [⟨.GetEnvironment ctx { Name := t.EnvName }, none⟩,
                    ⟨.StartEnvironment ctx { Name := t.EnvName }, none⟩]) (5 * Minute)) op,
                  none⟩]
              (WithTimeout ctx (clock [⟨.GetEnvironment ctx { Name := t.EnvName }, none⟩,
                ⟨.StartEnvironment ctx { Name := t.EnvName }, none⟩]) (5 * Minute))
              { Name := t.EnvName } with err | env
          · simp [cloudshellstart.Invoke, h1, hrun, h2, h3, h4, Call.envName, Call.method]
          · simp [cloudshellstart.Invoke, h1, hrun, h2, h3, h4, Call.envName, Call.method]

/-- The request of the authorize tool names `t.EnvName`; its only other call is the
wait. -/
theorem authorize_names {P : ToolsPkg} (t : Tool P) (clock : Clock) (ctx : Context)
    (mapParams : GoMap Value) :
    ∀ ev ∈ (cloudshellauthorize.Invoke t clock ctx mapParams).1,
      ev.call.envName = some t.EnvName ∨
        (ev.call.envName = none ∧ ev.call.method = .Wait) := by
  have hname : ∀ req : AuthorizeEnvironmentRequest,
      (if (assertString (GoMap.get mapParams cloudshellauthorize.accessTokenKey)).1 ≠ "" then
        ({ Name := t.EnvName,
           AccessToken :=
            (assertString (GoMap.get mapParams cloudshellauthorize.accessTokenKey)).1 } :
          AuthorizeEnvironmentRequest)
       else { Name := t.EnvName }) = req → req.Name = t.EnvName := by
    intro req hreq
    subst hreq
    split <;> rfl
  generalize hreq :
    (if (assertString (GoMap.get mapParams cloudshellauthorize.accessTokenKey)).1 ≠ "" then
      ({ Name := t.EnvName,
         AccessToken := (assertString (GoMap.get mapParams cloudshellauthorize.accessTokenKey)).1 } :
        AuthorizeEnvironmentRequest)
     else { Name := t.EnvName }) = req at hname
  have hn : req.Name = t.EnvName := hname req rfl
  rcases h1 : t.Client.AuthorizeEnvironment [] (WithTimeout ctx (clock []) (30 * Second)) req
    with err | op
  · simp [cloudshellauthorize.Invoke, hreq, h1, Call.envName, hn]
  · rcases h2 : t.Client.WaitAuthorize
        [⟨.AuthorizeEnvironment (WithTimeout ctx (clock []) (30 * Second)) req, none⟩]
        (WithTimeout ctx (clock []) (30 * Second)) op with err | resp
    · simp [cloudshellauthorize.Invoke, hreq, h1, h2, Call.envName, Call.method, hn]
    · simp [cloudshellauthorize.Invoke, hreq, h1, h2, Call.envName, Call.method, hn]

/-- The requests of the add-key tool name `t.EnvName`; its only other call is the wait. -/
theorem addkey_names {P : ToolsPkg} (t : Tool P) (ctx : Context) (mapParams : GoMap Value) :
    ∀ ev ∈ (cloudshelladdkey.Invoke t ctx mapParams).1,
      ev.call.envName = some t.EnvName ∨
        (ev.call.envName = none ∧ ev.call.method = .Wait) := by
  rcases hq : assertString (GoMap.get mapParams cloudshelladdkey.publicKeyKey)
    with ⟨publicKey, ok⟩
  by_cases hc : (!ok || decide (publicKey = "")) = true
  · simp [cloudshelladdkey.Invoke, hq, hc]
  · rcases h1 : t.Client.AddPublicKey [] ctx { Environment := t.EnvName, Key := publicKey }
      with err | op
    · simp [cloudshelladdkey.Invoke, hq, hc, h1, Call.envName]
    · rcases h2 : t.Client.WaitAddPublicKey
          [⟨.AddPublicKey ctx { Environment := t.EnvName, Key := publicKey }, none⟩] ctx op
        with err | resp
      · simp [cloudshelladdkey.Invoke, hq, hc, h1, h2, Call.envName, Call.method]
      · rcases h3 : t.Client.GetEnvironment
            [⟨.AddPublicKey ctx { Environment := t.EnvName, Key := publicKey }, none⟩,
              ⟨.WaitAddPublicKey ctx op, none⟩] ctx { Name := t.EnvName } with err | env
        · simp [cloudshelladdkey.Invoke, hq, hc, h1, h2, h3, Call.envName, Call.method]
        · simp [cloudshelladdkey.Invoke, hq, hc, h1, h2, h3, Call.envName, Call.method]

/-- The `EnvName` of a tool that `Initialize` returned is what `GetEnvironmentName()` of
the source bound under `cfg.Source` returns. -/
theorem Initialize_EnvName (P : ToolsPkg) (cfg : Config) (srcs : GoMap SourceValue)
    (tool : Tool P)
    (h : cloudshellgetenv.Initialize P cfg srcs = .ok tool ∨
      cloudshellstart.Initialize P cfg srcs = .ok tool ∨
      cloudshellauthorize.Initialize P cfg srcs = .ok tool ∨
      cloudshelladdkey.Initialize P cfg srcs = .ok tool) :
    ∃ rawS : SourceValue, GoMap.get srcs cfg.Source = some rawS ∧
      rawS.GetEnvironmentName = some tool.EnvName := by
  rcases hs : GoMap.get srcs cfg.Source with _ | rawS
  · simp [cloudshellgetenv.Initialize, cloudshellstart.Initialize,
      cloudshellauthorize.Initialize, cloudshelladdkey.Initialize, hs] at h
  · refine ⟨rawS, rfl, ?_⟩
    rcases hc : rawS.CloudShellClient with _ | client
    · simp [cloudshellgetenv.Initialize, cloudshellstart.Initialize,
        cloudshellauthorize.Initialize, cloudshelladdkey.Initialize, hs,
        assertCompatibleSource, hc] at h
    · rcases hn : rawS.GetEnvironmentName with _ | envName
      · simp [cloudshellgetenv.Initialize, cloudshellstart.Initialize,
          cloudshellauthorize.Initialize, cloudshelladdkey.Initialize, hs,
          assertCompatibleSource, hc, hn] at h
      · simp only [cloudshellgetenv.Initialize, cloudshellstart.Initialize,
          cloudshellauthorize.Initialize, cloudshelladdkey.Initialize, hs,
          assertCompatibleSource, hc, hn, Except.ok.injEq] at h
        rcases h with h | h | h | h <;> (subst h; rfl)

/-- C14: every request each of the four tools issues (`GetEnvironment`,
`StartEnvironment`, `AuthorizeEnvironment`, `AddPublicKey`) names `t.EnvName`, and the
only calls without a request are the waits; so for two invocations of one tool, under any
two parameter maps, contexts and clocks, all requests name the same environment.  A tool
that `Initialize` returned has for `EnvName` what `GetEnvironmentName()` of its source
returns. -/
theorem requests_name_EnvName {P : ToolsPkg} (t : Tool P) (clock clock' : Clock)
    (ctx ctx' : Context) (params params' : GoMap Value) :
    (∀ ev ∈ (cloudshellgetenv.Invoke t ctx params).1,
      ev.call.envName = some t.EnvName ∧ ev.call.method = .GetEnvironment) ∧
    (∀ ev ∈ (cloudshellstart.Invoke t clock ctx params).1,
      ev.call.envName = some t.EnvName ∨
        (ev.call.envName = none ∧ ev.call.method = .Wait)) ∧
    (∀ ev ∈ (cloudshellauthorize.Invoke t clock ctx params).1,
      ev.call.envName = some t.EnvName ∨
        (ev.call.envName = none ∧ ev.call.method = .Wait)) ∧
    (∀ ev ∈ (cloudshelladdkey.Invoke t ctx params).1,
      ev.call.envName = some t.EnvName ∨
        (ev.call.envName = none ∧ ev.call.method = .Wait)) ∧
    (∀ ev ∈ (cloudshellgetenv.Invoke t ctx params).1,
      ∀ ev' ∈ (cloudshellgetenv.Invoke t ctx' params').1,
      ∀ n n' : String, ev.call.envName = some n → ev'.call.envName = some n' → n = n') ∧
    (∀ ev ∈ (cloudshellstart.Invoke t clock ctx params).1,
      ∀ ev' ∈ (cloudshellstart.Invoke t clock' ctx' params').1,
      ∀ n n' : String, ev.call.envName = some n → ev'.call.envName = some n' → n = n') ∧
    (∀ ev ∈ (cloudshellauthorize.Invoke t clock ctx params).1,
      ∀ ev' ∈ (cloudshellauthorize.Invoke t clock' ctx' params').1,
      ∀ n n' : String, ev.call.envName = some n → ev'.call.envName = some n' → n = n') ∧
    (∀ ev ∈ (cloudshelladdkey.Invoke t ctx params).1,
      ∀ ev' ∈ (cloudshelladdkey.Invoke t ctx' params').1,
      ∀ n n' : String, ev.call.envName = some n → ev'.call.envName = some n' → n = n') ∧
    (∀ (cfg : Config) (srcs : GoMap SourceValue),
      (cloudshellgetenv.Initialize P cfg srcs = .ok t ∨
        cloudshellstart.Initialize P cfg srcs = .ok t ∨
        cloudshellauthorize.Initialize P cfg srcs = .ok t ∨
        cloudshelladdkey.Initialize P cfg srcs = .ok t) →
      ∃ rawS : SourceValue, GoMap.get srcs cfg.Source = some rawS ∧
        rawS.GetEnvironmentName = some t.EnvName) := by
  have two : ∀ (l l' : List Event),
      (∀ ev ∈ l, ev.call.envName = some t.EnvName ∨
        (ev.call.envName = none ∧ ev.call.method = .Wait)) →
      (∀ ev ∈ l', ev.call.envName = some t.EnvName ∨
        (ev.call.envName = none ∧ ev.call.method = .Wait)) →
      ∀ ev ∈ l, ∀ ev' ∈ l', ∀ n n' : String,
        ev.call.envName = some n → ev'.call.envName = some n' → n = n' := by
    intro l l' hl hl' ev hev ev' hev' n n' hn hn'
    rcases hl ev hev with h | h
    · rcases hl' ev' hev' with h' | h'
      · rw [h] at hn
        rw [h'] at hn'
        exact (Option.some.inj hn).symm.trans (Option.some.inj hn')
      · rw [h'.1] at hn'
        cases hn'
    · rw [h.1] at hn
      cases hn
  refine ⟨getenv_names t ctx params, start_names t clock ctx params,
    authorize_names t clock ctx params, addkey_names t ctx params, ?_, ?_, ?_, ?_,
    fun cfg srcs h => Initialize_EnvName P cfg srcs t h⟩
  · exact two _ _ (fun ev hev => Or.inl (getenv_names t ctx params ev hev).1)
      (fun ev hev => Or.inl (getenv_names t ctx' params' ev hev).1)
  · exact two _ _ (start_names t clock ctx params) (start_names t clock' ctx' params')
  · exact two _ _ (authorize_names t clock ctx params)
      (authorize_names t clock' ctx' params')
  · exact two _ _ (addkey_names t ctx params) (addkey_names t ctx' params')

theorem authorize_token_and_result_witness :
    ∃ (req : AuthorizeEnvironmentRequest) (failed : Option GoError) (rest : List Event),
      (cloudshellauthorize.Invoke
          (demoTool cloudshellauthorize.kind
            (demoClient (demoEnv Environment_RUNNING) (demoEnv Environment_RUNNING)))
          (fun _ => 0) ⟨none⟩ [("access_token", .str "ya29.token")]).1 =
        ⟨.AuthorizeEnvironment (WithTimeout ⟨none⟩ 0 (30 * Second)) req, failed⟩ :: rest ∧
      req.AccessToken = "ya29.token" := by
  obtain ⟨req, failed, rest, hlog, -, -, -, h4, -⟩ :=
    authorize_token_and_result
      (demoTool cloudshellauthorize.kind
        (demoClient (demoEnv Environment_RUNNING) (demoEnv Environment_RUNNING)))
      (fun _ => 0) ⟨none⟩ [("access_token", .str "ya29.token")]
  exact ⟨req, failed, rest, hlog, h4 "ya29.token" rfl (by decide)⟩

theorem requests_name_EnvName_witness :
    (⟨.AddPublicKey ⟨none⟩
        { Environment := "users/me/environments/default", Key := "ssh-ed25519 AAAA" },
        none⟩ : Event) ∈
      (cloudshelladdkey.Invoke
        (demoTool cloudshelladdkey.kind
          (demoClient (demoEnv Environment_RUNNING) (demoEnv Environment_RUNNING)))
        ⟨none⟩
        [("public_key", .str "ssh-ed25519 AAAA"),
          ("environment", .str "users/other/environments/default")]).1 ∧
    ((Call.AddPublicKey ⟨none⟩
        { Environment := "users/me/environments/default", Key := "ssh-ed25519 AAAA" }).envName =
        some "users/me/environments/default" ∨
      ((Call.AddPublicKey ⟨none⟩
        { Environment := "users/me/environments/default", Key := "ssh-ed25519 AAAA" }).envName =
          none ∧
        (Call.AddPublicKey ⟨none⟩
          { Environment := "users/me/environments/default",
            Key := "ssh-ed25519 AAAA" }).method = .Wait)) :=
  ⟨by decide,
    (requests_name_EnvName
      (demoTool cloudshelladdkey.kind
        (demoClient (demoEnv Environment_RUNNING) (demoEnv Environment_RUNNING)))
      (fun _ => 0) (fun _ => 0) ⟨none⟩ ⟨none⟩
      [("public_key", .str "ssh-ed25519 AAAA"),
        ("environment", .str "users/other/environments/default")]
      []).2.2.2.1
      ⟨.AddPublicKey ⟨none⟩
        { Environment := "users/me/environments/default", Key := "ssh-ed25519 AAAA" }, none⟩
      (by decide)⟩

end CloudShell
